import Mathlib

/-!
Shallow embedding of the gateway-operator reconciliation core.

The definitions below translate, function by function, the Go source of the
operator: the DataPlane reconciler (controllers/dataplane_controller.go), the
Gateway reconciler (the unnamed gateway controller file and
controllers/gateway_controller_reconciler_utils.go), the ControlPlane owned
resource management (controllers/controlplane_controller_reconciler_utils.go)
and the shared list/metadata helpers (internal/utils/kubernetes).  Machine
integers are modelled as Int, kubernetes API errors as an explicit error type,
and each reconcile pass as a pure function from an environment (the responses
of the cluster-state client and the collaborators) to the returned result, the
mutations performed and the final in-memory object.
-/

/-- Kubernetes API error classes distinguished by the reconcilers
(k8serrors.IsNotFound, k8serrors.IsConflict, anything else). -/
inductive K8sError where
  | notFound
  | conflict
  | other (msg : String)
deriving DecidableEq, Repr

/-- Errors surfaced by the reconcilers: wrapped kubernetes API errors plus the
operator error values (pkg errors ErrUnsupportedGateway,
ErrObjectMissingParametersRef) and the fmt.Errorf cases of the gateway
reconciler. -/
inductive OpErr where
  | k8s (e : K8sError)
  | unsupportedGateway
  | missingParametersRef
  | invalidParametersRefKind
  | invalidParametersRefTarget
  | tooManyServices (n : Nat)
  | noServices
  | serviceWithoutClusterIP
deriving DecidableEq, Repr

/-- ctrl.Result: requeue flag and the RequeueAfter duration (milliseconds). -/
structure CtrlResult where
  requeue : Bool
  requeueAfter : Int
deriving DecidableEq, Repr

/-- ctrl.Result left zero valued. -/
def emptyCtrlResult : CtrlResult := { requeue := false, requeueAfter := 0 }

/-- Modelled from the spec: the fixed short requeue delay used for the
immediate bounded requeue with no exponential backoff (the constant
requeueWithoutBackoff is declared outside the provided source files). -/
def requeueWithoutBackoff : Int := 200

/-- ctrl.Result with Requeue true and RequeueAfter requeueWithoutBackoff. -/
def requeueResult : CtrlResult := { requeue := true, requeueAfter := requeueWithoutBackoff }

/-- metav1.Condition, restricted to the fields the operator reads and writes. -/
structure Condition where
  ctype : String
  status : String
  reason : String
  message : String
  observedGeneration : Int
  lastTransitionTime : Int
deriving DecidableEq, Repr

/-- metav1.ConditionTrue. -/
def ConditionTrue : String := "True"

/-- metav1.ConditionFalse. -/
def ConditionFalse : String := "False"

/-- DataPlaneConditionTypeProvisioned. -/
def DataPlaneConditionTypeProvisioned : String := "Provisioned"

/-- DataPlaneConditionReasonPodsNotReady. -/
def DataPlaneConditionReasonPodsNotReady : String := "PodsNotReady"

/-- DataPlaneConditionReasonPodsReady. -/
def DataPlaneConditionReasonPodsReady : String := "PodsReady"

/-- DataPlaneConditionValidationFailed. -/
def DataPlaneConditionValidationFailed : String := "ValidationFailed"

/-- ControlPlaneConditionTypeProvisioned. -/
def ControlPlaneConditionTypeProvisioned : String := "Provisioned"

/-- gatewayv1alpha2.GatewayConditionScheduled. -/
def GatewayConditionScheduled : String := "Scheduled"

/-- gatewayv1alpha2.GatewayConditionReady. -/
def GatewayConditionReady : String := "Ready"

/-- Modelled from the spec: the fixed label key identifying an object as
operator controlled (consts.GatewayOperatorControlledLabel; the consts package
is outside the provided source files). -/
def GatewayOperatorControlledLabel : String := "konghq.com/gateway-operator"

/-- Modelled from the spec: provenance label value for children managed by the
DataPlane reconciler (consts.DataPlaneManagedLabelValue). -/
def DataPlaneManagedLabelValue : String := "dataplane"

/-- Modelled from the spec: provenance label value for children managed by the
ControlPlane reconciler (consts.ControlPlaneManagedLabelValue). -/
def ControlPlaneManagedLabelValue : String := "controlplane"

/-- Modelled from the spec: provenance label value for children managed by the
Gateway reconciler (consts.GatewayManagedLabelValue). -/
def GatewayManagedLabelValue : String := "gateway"

/-- metav1.ObjectMeta restricted to the fields the operator reads and writes;
ownerReferences are reduced to the list of referenced owner UIDs, which is the
only part the code inspects. -/
structure ObjMeta where
  name : String
  nspace : String
  generateName : String
  uid : String
  labels : List (String × String)
  ownerUIDs : List String
deriving DecidableEq, Repr

/-- Modelled from the spec: IsOwnedByRefUID holds when some ownerReference of
the object carries the given UID (invariant 1: ownerReference UID is the sole
authority for ownership). -/
def IsOwnedByRefUID (meta : ObjMeta) (uid : String) : Bool :=
  meta.ownerUIDs.contains uid

/-- Modelled from the spec: SetOwnerForObject replaces the generated object
ownerReferences with the single reference to the parent UID. -/
def SetOwnerForObject (meta : ObjMeta) (parentUID : String) : ObjMeta :=
  { meta with ownerUIDs := [parentUID] }

/-- Label-map write: replace the value at an existing key in place, append the
pair otherwise (assoc-list model of the Go label map). -/
def setLabel (k v : String) : List (String × String) → List (String × String)
  | [] => [(k, v)]
  | (k0, v0) :: rest =>
      if k0 = k then (k, v) :: rest else (k0, v0) :: setLabel k v rest

/-- Union of a base label map with the generated labels, generated value
winning on key collision (the for-range copy in EnsureObjectMetaIsUpdated). -/
def unionLabels (base gen : List (String × String)) : List (String × String) :=
  gen.foldl (fun acc kv => setLabel kv.1 kv.2 acc) base

/-- EnsureObjectMetaIsUpdated (internal/utils/kubernetes/metadata.go): owner
references are replaced by the generated set, labels are unioned with the
generated value winning; returns whether anything differed together with the
merged metadata. -/
def EnsureObjectMetaIsUpdated (existing generated : ObjMeta) : Bool × ObjMeta :=
  let newMeta : ObjMeta :=
    { existing with
      ownerUIDs := generated.ownerUIDs
      labels := unionLabels existing.labels generated.labels }
  (decide (existing.ownerUIDs ≠ newMeta.ownerUIDs) ||
     decide (existing.labels ≠ newMeta.labels), newMeta)

/-- Reads the label map at a key (assoc-list lookup). -/
def labelValue (meta : ObjMeta) (k : String) : Option String :=
  meta.labels.lookup k

/-- Check of client.MatchingLabels with a single required key and value. -/
def hasLabel (meta : ObjMeta) (k v : String) : Bool :=
  labelValue meta k = some v

-- -----------------------------------------------------------------------------
-- DataPlane status condition management (dataplane controller status file)
-- -----------------------------------------------------------------------------

/-- Condition appended by ensureDataPlaneIsMarkedScheduled. -/
def scheduledProvisionedCondition (gen now : Int) : Condition :=
  { ctype := DataPlaneConditionTypeProvisioned
    reason := DataPlaneConditionReasonPodsNotReady
    status := ConditionFalse
    message := "DataPlane resource is scheduled for provisioning"
    observedGeneration := gen
    lastTransitionTime := now }

/-- Condition-list core of ensureDataPlaneIsMarkedScheduled: if no condition of
type Provisioned exists, append the PodsNotReady condition and report that a
status update is required; otherwise leave the list unchanged. -/
def ensureDataPlaneIsMarkedScheduledConds (gen now : Int)
    (conds : List Condition) : Bool × List Condition :=
  let isScheduled := conds.any fun c => c.ctype = DataPlaneConditionTypeProvisioned
  if !isScheduled then
    (true, conds ++ [scheduledProvisionedCondition gen now])
  else
    (false, conds)

/-- Condition-list core of ensureDataPlaneIsMarkedProvisioned: every condition
of type Provisioned is rewritten in place to True PodsReady. -/
def ensureDataPlaneIsMarkedProvisionedConds (gen now : Int)
    (conds : List Condition) : List Condition :=
  conds.map fun condition =>
    if condition.ctype = DataPlaneConditionTypeProvisioned then
      { condition with
        status := ConditionTrue
        reason := DataPlaneConditionReasonPodsReady
        message := "pods for all Deployments are ready"
        observedGeneration := gen
        lastTransitionTime := now }
    else condition

/-- isSameDataPlaneCondition: two conditions indicate the same DataPlane state
when type, status, reason and message all agree. -/
def isSameDataPlaneCondition (condition1 condition2 : Condition) : Bool :=
  condition1.ctype = condition2.ctype &&
    condition1.status = condition2.status &&
    condition1.reason = condition2.reason &&
    condition1.message = condition2.message

/-- Condition built by ensureDataPlaneIsMarkedNotProvisioned. -/
def notProvisionedCondition (reason message : String) (gen now : Int) : Condition :=
  { ctype := DataPlaneConditionTypeProvisioned
    status := ConditionFalse
    reason := reason
    message := message
    observedGeneration := gen
    lastTransitionTime := now }

/-- Condition-list core of ensureDataPlaneIsMarkedNotProvisioned: each
condition of type Provisioned that differs from the target condition is
replaced in place; when no Provisioned condition exists the target is
appended; the Bool reports whether a status update is required. -/
def ensureDataPlaneIsMarkedNotProvisionedConds (reason message : String)
    (gen now : Int) (conds : List Condition) : Bool × List Condition :=
  let target := notProvisionedCondition reason message gen now
  let conditionFound := conds.any fun c => c.ctype = DataPlaneConditionTypeProvisioned
  let shouldUpdate := conds.any fun c =>
    c.ctype = DataPlaneConditionTypeProvisioned && !isSameDataPlaneCondition target c
  let replaced := conds.map fun c =>
    if c.ctype = DataPlaneConditionTypeProvisioned && !isSameDataPlaneCondition target c then
      target
    else c
  if !conditionFound then
    (true, conds ++ [target])
  else
    (shouldUpdate, replaced)

-- -----------------------------------------------------------------------------
-- Resource objects
-- -----------------------------------------------------------------------------

/-- corev1.Service restricted to the fields the operator reads: the assigned
cluster-internal address and the load-balancer ingress IPs. -/
structure ServiceObj where
  meta : ObjMeta
  clusterIP : String
  lbIngressIPs : List String
deriving DecidableEq, Repr

/-- corev1.Secret restricted to its name (the deployment ensure step only
consumes the certificate secret name). -/
structure SecretObj where
  name : String
deriving DecidableEq, Repr

/-- appsv1.Deployment restricted to the fields the operator reads and writes:
spec replicas, the env list of the first container, and the status replica
counters. -/
structure DeploymentObj where
  meta : ObjMeta
  specReplicas : Option Int
  containerEnv : List (String × String)
  statusReplicas : Int
  availableReplicas : Int
deriving DecidableEq, Repr

/-- DataPlaneDeploymentOptions restricted to the fields the reconcilers
compare and rewrite (env and envFrom of the proxy container). -/
structure DataPlaneDeploymentOptions where
  env : List (String × String)
  envFrom : List String
deriving DecidableEq, Repr

/-- Zero value of DataPlaneDeploymentOptions. -/
def emptyDataPlaneDeploymentOptions : DataPlaneDeploymentOptions :=
  { env := [], envFrom := [] }

/-- DataPlane custom resource. -/
structure DataPlaneObj where
  meta : ObjMeta
  generation : Int
  spec : DataPlaneDeploymentOptions
  conditions : List Condition
deriving DecidableEq, Repr

/-- ControlPlaneDeploymentOptions restricted to the fields the reconcilers
read: env list, envFrom, the configured replica count and the DataPlane name
reference. -/
structure ControlPlaneDeploymentOptions where
  env : List (String × String)
  envFrom : List String
  replicas : Option Int
  dataPlane : Option String
deriving DecidableEq, Repr

/-- Zero value of ControlPlaneDeploymentOptions. -/
def emptyControlPlaneDeploymentOptions : ControlPlaneDeploymentOptions :=
  { env := [], envFrom := [], replicas := none, dataPlane := none }

/-- ControlPlane custom resource (spec embeds the deployment options plus the
GatewayClass reference). -/
structure ControlPlaneObj where
  meta : ObjMeta
  generation : Int
  spec : ControlPlaneDeploymentOptions
  gatewayClass : Option String
  conditions : List Condition
deriving DecidableEq, Repr

/-- gatewayv1alpha2.GatewayAddress. -/
structure GatewayAddress where
  addrType : String
  value : String
deriving DecidableEq, Repr

/-- gatewayv1alpha2.IPAddressType. -/
def IPAddressType : String := "IPAddress"

/-- gatewayv1alpha2.Gateway restricted to the fields the operator reads and
writes. -/
structure GatewayObj where
  meta : ObjMeta
  generation : Int
  gatewayClassName : String
  conditions : List Condition
  addresses : List GatewayAddress
deriving DecidableEq, Repr

/-- parametersRef of a GatewayClass. -/
structure ParametersRef where
  group : String
  kind : String
  nspace : Option String
  name : String
deriving DecidableEq, Repr

/-- gatewayv1alpha2.GatewayClass restricted to the fields the operator
reads. -/
structure GatewayClassObj where
  name : String
  controllerName : String
  parametersRef : Option ParametersRef
deriving DecidableEq, Repr

/-- GatewayConfiguration spec: optional dataplane and controlplane deployment
options. -/
structure GatewayConfigurationObj where
  dataPlaneOptions : Option DataPlaneDeploymentOptions
  controlPlaneOptions : Option ControlPlaneDeploymentOptions
deriving DecidableEq, Repr

/-- Zero value GatewayConfiguration (new(operatorv1alpha1.GatewayConfiguration)). -/
def emptyGatewayConfiguration : GatewayConfigurationObj :=
  { dataPlaneOptions := none, controlPlaneOptions := none }

/-- operatorv1alpha1.SchemeGroupVersion.Group. -/
def SchemeGroupVersionGroup : String := "gateway-operator.konghq.com"

-- -----------------------------------------------------------------------------
-- Shared list helpers (internal/utils/kubernetes/lists.go)
-- -----------------------------------------------------------------------------

/-- ListDeploymentsForOwner: deployments in the namespace carrying the
required label, reduced by exact ownerReference UID match. -/
def ListDeploymentsForOwner (requiredLabel requiredValue nspace uid : String)
    (all : List DeploymentObj) : List DeploymentObj :=
  (all.filter fun d =>
    d.meta.nspace = nspace && hasLabel d.meta requiredLabel requiredValue).filter
    fun d => IsOwnedByRefUID d.meta uid

/-- ListServicesForOwner: services in the namespace carrying the required
label, reduced by exact ownerReference UID match. -/
def ListServicesForOwner (requiredLabel requiredValue nspace uid : String)
    (all : List ServiceObj) : List ServiceObj :=
  (all.filter fun s =>
    s.meta.nspace = nspace && hasLabel s.meta requiredLabel requiredValue).filter
    fun s => IsOwnedByRefUID s.meta uid

/-- Modelled from the spec: ListDataPlanesForGateway (gatewayutils, outside
the provided source files) lists the DataPlanes in the Gateway namespace that
carry the gateway-managed provenance label and an ownerReference with the
Gateway UID. -/
def ListDataPlanesForGateway (gw : GatewayObj)
    (all : List DataPlaneObj) : List DataPlaneObj :=
  (all.filter fun d =>
    d.meta.nspace = gw.meta.nspace &&
      hasLabel d.meta GatewayOperatorControlledLabel GatewayManagedLabelValue).filter
    fun d => IsOwnedByRefUID d.meta gw.meta.uid

/-- Modelled from the spec: ListControlPlanesForGateway (gatewayutils, outside
the provided source files) lists the ControlPlanes in the Gateway namespace
that carry the gateway-managed provenance label and an ownerReference with the
Gateway UID. -/
def ListControlPlanesForGateway (gw : GatewayObj)
    (all : List ControlPlaneObj) : List ControlPlaneObj :=
  (all.filter fun c =>
    c.meta.nspace = gw.meta.nspace &&
      hasLabel c.meta GatewayOperatorControlledLabel GatewayManagedLabelValue).filter
    fun c => IsOwnedByRefUID c.meta gw.meta.uid

-- -----------------------------------------------------------------------------
-- DataPlane reconciler - Reconcile (controllers/dataplane_controller.go)
-- -----------------------------------------------------------------------------

/-- Modelled from the spec: k8sutils.InitReady is declared outside the
provided source files and the spec pass sequence describes no separate
initialization step before the scheduled-condition check, so it is the
identity on the modelled fields. -/
def InitReady (dataplane : DataPlaneObj) : DataPlaneObj := dataplane

/-- Modelled from the spec: the documented env defaults applied by
dataplaneutils.SetDataPlaneDefaults when neither env nor envFrom is set. -/
def defaultDataPlaneEnv : List (String × String) :=
  [("KONG_DATABASE", "off"), ("KONG_PROXY_LISTEN", "0.0.0.0:8000")]

/-- Modelled from the spec: SetDataPlaneDefaults applies the documented env
defaults to the DataPlane deployment options. -/
def SetDataPlaneDefaults (opts : DataPlaneDeploymentOptions) : DataPlaneDeploymentOptions :=
  { opts with env := defaultDataPlaneEnv }

/-- Observable steps of one DataPlane reconcile pass: collaborator calls and
the cluster-state writes that were issued successfully. -/
inductive DPAction where
  | scheduledStatusUpdate (conds : List Condition)
  | ensureServiceCalled (createdOrUpdated : Bool)
  | serviceStatusUpdate
  | specDefaultsUpdate
  | warningEvent (reason message : String)
  | notProvisionedStatusUpdate (conds : List Condition)
  | ensureCertificateCalled (createdOrUpdated : Bool)
  | ensureDeploymentCalled (createdOrUpdated : Bool)
  | provisionedStatusUpdate (conds : List Condition)
deriving DecidableEq, Repr

/-- Environment of one DataPlane reconcile pass: the response of every
cluster-state read or write the pass can perform and the verdict of the
external spec validator. -/
structure DPEnv where
  now : Int
  getDataPlane : Except K8sError DataPlaneObj
  scheduledUpdateErr : Option K8sError
  svcEnsure : Except OpErr (Bool × ServiceObj)
  svcStatusUpdateErr : Option K8sError
  specUpdateErr : Option K8sError
  validateErr : Option String
  notProvUpdateErr : Option K8sError
  certEnsure : Except OpErr (Bool × SecretObj)
  depEnsure : Except OpErr (Bool × DeploymentObj)
  finalUpdateErr : Option K8sError
deriving Repr

/-- Result of one DataPlane reconcile pass: the returned ctrl.Result and
error, the final in-memory DataPlane, and the trace of performed steps. -/
structure DPResult where
  res : CtrlResult
  err : Option OpErr
  dataplane : Option DataPlaneObj
  trace : List DPAction
deriving DecidableEq, Repr

/-- Reconcile of the DataPlane reconciler, translated line by line: resource
fetch, scheduled marking, service ensure, cluster IP gate, env defaulting,
external validation, certificate ensure, deployment ensure, replica readiness
gate and the final provisioned status update with its conflict handling. -/
def dataPlaneReconcile (env : DPEnv) : DPResult :=
  match env.getDataPlane with
  | .error .notFound => ⟨emptyCtrlResult, none, none, []⟩
  | .error e => ⟨emptyCtrlResult, some (.k8s e), none, []⟩
  | .ok dataplane0 =>
    let dataplane := InitReady dataplane0
    let (changed, conds) :=
      ensureDataPlaneIsMarkedScheduledConds dataplane.generation env.now dataplane.conditions
    if changed then
      let dataplane := { dataplane with conditions := conds }
      match env.scheduledUpdateErr with
      | some e => ⟨emptyCtrlResult, some (.k8s e), some dataplane, []⟩
      | none => ⟨emptyCtrlResult, none, some dataplane, [.scheduledStatusUpdate conds]⟩
    else
      match env.svcEnsure with
      | .error e => ⟨emptyCtrlResult, some e, some dataplane, []⟩
      | .ok (createdOrUpdated, dataplaneService) =>
        if createdOrUpdated then
          match env.svcStatusUpdateErr with
          | some e =>
              ⟨emptyCtrlResult, some (.k8s e), some dataplane, [.ensureServiceCalled true]⟩
          | none =>
              ⟨emptyCtrlResult, none, some dataplane,
                [.ensureServiceCalled true, .serviceStatusUpdate]⟩
        else if dataplaneService.clusterIP = "" then
          ⟨emptyCtrlResult, none, some dataplane, [.ensureServiceCalled false]⟩
        else if dataplane.spec.env = [] && dataplane.spec.envFrom = [] then
          let dataplane := { dataplane with spec := SetDataPlaneDefaults dataplane.spec }
          match env.specUpdateErr with
          | some .conflict =>
              ⟨requeueResult, none, some dataplane, [.ensureServiceCalled false]⟩
          | some e =>
              ⟨emptyCtrlResult, some (.k8s e), some dataplane, [.ensureServiceCalled false]⟩
          | none =>
              ⟨emptyCtrlResult, none, some dataplane,
                [.ensureServiceCalled false, .specDefaultsUpdate]⟩
        else
          match env.validateErr with
          | some msg =>
            let (shouldUpdate, conds) :=
              ensureDataPlaneIsMarkedNotProvisionedConds
                DataPlaneConditionValidationFailed msg dataplane.generation env.now
                dataplane.conditions
            let dataplane := { dataplane with conditions := conds }
            let baseTrace :=
              [DPAction.ensureServiceCalled false,
               DPAction.warningEvent "ValidationFailed" msg]
            if shouldUpdate then
              match env.notProvUpdateErr with
              | some e => ⟨emptyCtrlResult, some (.k8s e), some dataplane, baseTrace⟩
              | none =>
                  ⟨emptyCtrlResult, none, some dataplane,
                    baseTrace ++ [.notProvisionedStatusUpdate conds]⟩
            else ⟨emptyCtrlResult, none, some dataplane, baseTrace⟩
          | none =>
            match env.certEnsure with
            | .error e =>
                ⟨emptyCtrlResult, some e, some dataplane, [.ensureServiceCalled false]⟩
            | .ok (certCreatedOrUpdated, _certSecret) =>
              if certCreatedOrUpdated then
                ⟨emptyCtrlResult, none, some dataplane,
                  [.ensureServiceCalled false, .ensureCertificateCalled true]⟩
              else
                match env.depEnsure with
                | .error e =>
                    ⟨emptyCtrlResult, some e, some dataplane,
                      [.ensureServiceCalled false, .ensureCertificateCalled false]⟩
                | .ok (depCreatedOrUpdated, dataplaneDeployment) =>
                  let baseTrace :=
                    [DPAction.ensureServiceCalled false,
                     DPAction.ensureCertificateCalled false,
                     DPAction.ensureDeploymentCalled depCreatedOrUpdated]
                  if depCreatedOrUpdated then
                    ⟨emptyCtrlResult, none, some dataplane, baseTrace⟩
                  else if dataplaneDeployment.statusReplicas = 0 ||
                      dataplaneDeployment.availableReplicas < dataplaneDeployment.statusReplicas then
                    ⟨emptyCtrlResult, none, some dataplane, baseTrace⟩
                  else
                    let conds :=
                      ensureDataPlaneIsMarkedProvisionedConds dataplane.generation env.now
                        dataplane.conditions
                    let dataplane := { dataplane with conditions := conds }
                    match env.finalUpdateErr with
                    | some .conflict => ⟨requeueResult, none, some dataplane, baseTrace⟩
                    | some e => ⟨emptyCtrlResult, some (.k8s e), some dataplane, baseTrace⟩
                    | none =>
                        ⟨emptyCtrlResult, none, some dataplane,
                          baseTrace ++ [.provisionedStatusUpdate conds]⟩

-- -----------------------------------------------------------------------------
-- Owned resource management - DataPlane and ControlPlane reconcilers
-- -----------------------------------------------------------------------------

/-- Results injected for the client write operations an ensure function can
perform (DeleteAllOf, Create, Update); none means success. -/
structure WriteResults where
  deleteAllErr : Option K8sError
  createErr : Option K8sError
  updateErr : Option K8sError
deriving DecidableEq, Repr

/-- WriteResults with every operation succeeding. -/
def noWriteErr : WriteResults := { deleteAllErr := none, createErr := none, updateErr := none }

/-- Modelled from the spec: labelObjForDataplane stamps the dataplane-managed
provenance label on a generated object. -/
def labelObjForDataplane (meta : ObjMeta) : ObjMeta :=
  { meta with labels := setLabel GatewayOperatorControlledLabel DataPlaneManagedLabelValue meta.labels }

/-- Modelled from the spec: labelObjForControlPlane stamps the
controlplane-managed provenance label on a generated object. -/
def labelObjForControlPlane (meta : ObjMeta) : ObjMeta :=
  { meta with labels := setLabel GatewayOperatorControlledLabel ControlPlaneManagedLabelValue meta.labels }

/-- Modelled from the spec: LabelObjectAsGatewayManaged stamps the
gateway-managed provenance label on a generated object. -/
def LabelObjectAsGatewayManaged (meta : ObjMeta) : ObjMeta :=
  { meta with labels := setLabel GatewayOperatorControlledLabel GatewayManagedLabelValue meta.labels }

/-- Modelled from the spec: generateNewDeploymentForDataPlane derives the
desired proxy Deployment from the DataPlane deployment options (outside the
provided source files; only its metadata and replica fields are consumed by
the claims below). -/
def generateNewDeploymentForDataPlane (dataplane : DataPlaneObj) : DeploymentObj :=
  { meta :=
      { name := ""
        nspace := dataplane.meta.nspace
        generateName := dataplane.meta.name ++ "-"
        uid := ""
        labels := []
        ownerUIDs := [] }
    specReplicas := none
    containerEnv := dataplane.spec.env
    statusReplicas := 0
    availableReplicas := 0 }

/-- Removes every Deployment of the namespace carrying the given provenance
label value (client.DeleteAllOf with InNamespace and MatchingLabels). -/
def deleteAllDeploymentsByLabel (nspace labelVal : String)
    (all : List DeploymentObj) : List DeploymentObj :=
  all.filter fun d =>
    !(d.meta.nspace = nspace && hasLabel d.meta GatewayOperatorControlledLabel labelVal)

/-- Replaces one Deployment in the cluster list (client.Update of an object
read in the same pass). -/
def updateDeploymentIn (all : List DeploymentObj) (old new : DeploymentObj) :
    List DeploymentObj :=
  all.map fun d => if d = old then new else d

/-- ensureDeploymentForDataPlane (dataplane controller owned-resource file):
lists owned Deployments, resolves a multiplicity violation by deleting every
dataplane-managed Deployment of the namespace, updates the metadata of a
single survivor, and otherwise creates the freshly generated Deployment. -/
def ensureDeploymentForDataPlane (dataplane : DataPlaneObj)
    (all : List DeploymentObj) (w : WriteResults) :
    Except K8sError DeploymentObj × List DeploymentObj :=
  let deployments :=
    ListDeploymentsForOwner GatewayOperatorControlledLabel DataPlaneManagedLabelValue
      dataplane.meta.nspace dataplane.meta.uid all
  let count := deployments.length
  let afterDelete : Except K8sError (List DeploymentObj) :=
    if count > 1 then
      match w.deleteAllErr with
      | some e => .error e
      | none => .ok (deleteAllDeploymentsByLabel dataplane.meta.nspace DataPlaneManagedLabelValue all)
    else .ok all
  match afterDelete with
  | .error e => (.error e, all)
  | .ok all1 =>
    let generatedDeployment0 := generateNewDeploymentForDataPlane dataplane
    let generatedDeployment :=
      { generatedDeployment0 with
        meta := labelObjForDataplane
          (SetOwnerForObject generatedDeployment0.meta dataplane.meta.uid) }
    match deployments with
    | [existingDeployment] =>
      let (updated, newMeta) :=
        EnsureObjectMetaIsUpdated existingDeployment.meta generatedDeployment.meta
      let existingDeployment1 := { existingDeployment with meta := newMeta }
      if updated then
        match w.updateErr with
        | some e => (.error e, all1)
        | none =>
            (.ok existingDeployment1, updateDeploymentIn all1 existingDeployment existingDeployment1)
      else (.ok existingDeployment1, all1)
    | _ =>
      match w.createErr with
      | some e => (.error e, all1)
      | none => (.ok generatedDeployment, all1 ++ [generatedDeployment])

/-- numReplicasWhenNoDataplane: desired replica count of the controlplane
deployment while no dataplane is set. -/
def numReplicasWhenNoDataplane : Int := 0

/-- dataplaneIsSet computation of the ControlPlane reconciler: the reference
is non-nil and not the empty string. -/
def dataplaneRefIsSet : Option String → Bool
  | none => false
  | some s => s ≠ ""

/-- Modelled from the spec: generateNewDeploymentForControlPlane derives the
desired controller Deployment from the ControlPlane deployment options
(outside the provided source files): configured replica count and env list,
placed in the ControlPlane namespace. -/
def generateNewDeploymentForControlPlane (controlplane : ControlPlaneObj)
    (_serviceAccountName : String) : DeploymentObj :=
  { meta :=
      { name := ""
        nspace := controlplane.meta.nspace
        generateName := controlplane.meta.name ++ "-"
        uid := ""
        labels := []
        ownerUIDs := [] }
    specReplicas := controlplane.spec.replicas
    containerEnv := controlplane.spec.env
    statusReplicas := 0
    availableReplicas := 0 }

/-- ensureDeploymentForControlPlane
(controllers/controlplane_controller_reconciler_utils.go): lists owned
Deployments, deletes every controlplane-managed Deployment of the namespace on
a multiplicity violation, scales a single survivor to zero replicas when no
DataPlane is set and unsets the replica override when one was just set, and on
create forces zero replicas while no DataPlane is set. -/
def ensureDeploymentForControlPlane (controlplane : ControlPlaneObj)
    (serviceAccountName : String) (all : List DeploymentObj) (w : WriteResults) :
    Except K8sError (Bool × DeploymentObj) × List DeploymentObj :=
  let dataplaneIsSet := dataplaneRefIsSet controlplane.spec.dataPlane
  let deployments :=
    ListDeploymentsForOwner GatewayOperatorControlledLabel ControlPlaneManagedLabelValue
      controlplane.meta.nspace controlplane.meta.uid all
  let count := deployments.length
  let afterDelete : Except K8sError (List DeploymentObj) :=
    if count > 1 then
      match w.deleteAllErr with
      | some e => .error e
      | none =>
          .ok (deleteAllDeploymentsByLabel controlplane.meta.nspace ControlPlaneManagedLabelValue all)
    else .ok all
  match afterDelete with
  | .error e => (.error e, all)
  | .ok all1 =>
    let generatedDeployment0 := generateNewDeploymentForControlPlane controlplane serviceAccountName
    let generatedDeployment :=
      { generatedDeployment0 with
        meta := labelObjForControlPlane
          (SetOwnerForObject generatedDeployment0.meta controlplane.meta.uid) }
    match deployments with
    | [existingDeployment] =>
      let (updated0, newMeta) :=
        EnsureObjectMetaIsUpdated existingDeployment.meta generatedDeployment.meta
      let replicas := existingDeployment.specReplicas
      let scaleDown := !dataplaneIsSet &&
        (replicas = none || replicas ≠ some numReplicasWhenNoDataplane)
      let scaleUp := dataplaneIsSet &&
        (replicas ≠ none && replicas = some numReplicasWhenNoDataplane)
      let (updated, existingDeployment1) :=
        if scaleDown then
          (true, { existingDeployment with
            meta := newMeta
            specReplicas := some numReplicasWhenNoDataplane })
        else if scaleUp then
          (true, { existingDeployment with
            meta := newMeta
            specReplicas := none
            containerEnv :=
              if existingDeployment.containerEnv ≠ [] then controlplane.spec.env
              else existingDeployment.containerEnv })
        else (updated0, { existingDeployment with meta := newMeta })
      if updated then
        match w.updateErr with
        | some e => (.error e, all1)
        | none =>
            (.ok (true, existingDeployment1),
              updateDeploymentIn all1 existingDeployment existingDeployment1)
      else (.ok (false, existingDeployment1), all1)
    | _ =>
      let generatedDeployment1 :=
        if !dataplaneIsSet then
          { generatedDeployment with specReplicas := some numReplicasWhenNoDataplane }
        else generatedDeployment
      match w.createErr with
      | some e => (.error e, all1)
      | none => (.ok (true, generatedDeployment1), all1 ++ [generatedDeployment1])

-- -----------------------------------------------------------------------------
-- Gateway reconciler - helpers (gateway_controller_reconciler_utils.go)
-- -----------------------------------------------------------------------------

/-- Cluster-state snapshot threaded through the Gateway reconcile pass. -/
structure Cluster where
  dataplanes : List DataPlaneObj
  controlplanes : List ControlPlaneObj
  services : List ServiceObj
deriving DecidableEq, Repr

/-- Modelled from the spec: IsGatewayScheduled (gatewayutils, outside the
provided source files) holds when the Gateway status carries a Scheduled
condition with status True whose observedGeneration equals the current
generation (spec invariant 4 on authoritative conditions). -/
def IsGatewayScheduled (gw : GatewayObj) : Bool :=
  gw.conditions.any fun c =>
    c.ctype = GatewayConditionScheduled && c.status = ConditionTrue &&
      c.observedGeneration = gw.generation

/-- Modelled from the spec: IsGatewayReady (gatewayutils, outside the provided
source files) holds when the Gateway status carries a Ready condition with
status True whose observedGeneration equals the current generation. -/
def IsGatewayReady (gw : GatewayObj) : Bool :=
  gw.conditions.any fun c =>
    c.ctype = GatewayConditionReady && c.status = ConditionTrue &&
      c.observedGeneration = gw.generation

/-- Keeps the last condition of each type, preserving the order of the kept
entries. -/
def dedupKeepLastByType : List Condition → List Condition
  | [] => []
  | c :: rest =>
      if rest.any (fun d => d.ctype = c.ctype) then dedupKeepLastByType rest
      else c :: dedupKeepLastByType rest

/-- Modelled from the spec: PruneGatewayStatusConds (gatewayutils, outside the
provided source files) prunes stale and duplicate condition entries: entries
whose observedGeneration is not the current generation are dropped and a
single entry per type is kept. -/
def PruneGatewayStatusConds (gw : GatewayObj) : GatewayObj :=
  { gw with conditions :=
      dedupKeepLastByType (gw.conditions.filter fun c => c.observedGeneration = gw.generation) }

/-- gatewayv1alpha2.GatewayReasonScheduled. -/
def GatewayReasonScheduled : String := "Scheduled"

/-- gatewayv1alpha2.GatewayReasonReady. -/
def GatewayReasonReady : String := "Ready"

/-- Scheduled condition appended by the Gateway Reconcile pass. -/
def gatewayScheduledCondition (controllerName : String) (gen now : Int) : Condition :=
  { ctype := GatewayConditionScheduled
    status := ConditionTrue
    observedGeneration := gen
    lastTransitionTime := now
    reason := GatewayReasonScheduled
    message := "this gateway has been picked up by the " ++ controllerName ++
      " and will be processed" }

/-- Ready condition written by ensureGatewayMarkedReady. -/
def gatewayReadyCondition (gen now : Int) : Condition :=
  { ctype := GatewayConditionReady
    status := ConditionTrue
    observedGeneration := gen
    lastTransitionTime := now
    reason := GatewayReasonReady
    message := "" }

/-- Modelled from the spec: deep comparison of the meaningful DataPlane
deployment option fields (dataplaneSpecDeepEqual, outside the provided source
files) is equality of the modelled options record. -/
def dataplaneSpecDeepEqual (a b : DataPlaneDeploymentOptions) : Bool :=
  a = b

/-- Modelled from the spec: deep comparison of the meaningful ControlPlane
deployment option fields (controlplaneSpecDeepEqual, outside the provided
source files) is equality of the modelled options record. -/
def controlplaneSpecDeepEqual (a b : ControlPlaneDeploymentOptions) : Bool :=
  a = b

/-- GenerateNewDataPlaneForGateway (resource generators file): a DataPlane in
the Gateway namespace with the Gateway name as generateName prefix, spec taken
from the configuration dataplane options when present. -/
def GenerateNewDataPlaneForGateway (gw : GatewayObj)
    (gatewayConfig : GatewayConfigurationObj) : DataPlaneObj :=
  { meta :=
      { name := ""
        nspace := gw.meta.nspace
        generateName := gw.meta.name ++ "-"
        uid := ""
        labels := []
        ownerUIDs := [] }
    generation := 0
    spec :=
      match gatewayConfig.dataPlaneOptions with
      | some opts => opts
      | none => emptyDataPlaneDeploymentOptions
    conditions := [] }

/-- GenerateNewControlPlaneForGateway
(internal/utils/kubernetes/resources/controlplanes.go): a ControlPlane in the
Gateway namespace referencing the GatewayClass, spec taken from the
configuration controlplane options when present, with the DataPlane reference
defaulted to the given name when unset. -/
def GenerateNewControlPlaneForGateway (gatewayClass : GatewayClassObj)
    (gw : GatewayObj) (gatewayConfig : GatewayConfigurationObj)
    (dataplaneName : String) : ControlPlaneObj :=
  let spec0 :=
    match gatewayConfig.controlPlaneOptions with
    | some opts => opts
    | none => emptyControlPlaneDeploymentOptions
  let spec1 :=
    if spec0.dataPlane = none then { spec0 with dataPlane := some dataplaneName }
    else spec0
  { meta :=
      { name := ""
        nspace := gw.meta.nspace
        generateName := gw.meta.name ++ "-"
        uid := ""
        labels := []
        ownerUIDs := [] }
    generation := 0
    spec := spec1
    gatewayClass := some gatewayClass.name
    conditions := [] }

/-- Removes every DataPlane of the namespace carrying the gateway-managed
provenance label (client.DeleteAllOf on the DataPlane kind). -/
def deleteAllDataPlanesByGatewayLabel (nspace : String)
    (all : List DataPlaneObj) : List DataPlaneObj :=
  all.filter fun d =>
    !(d.meta.nspace = nspace &&
      hasLabel d.meta GatewayOperatorControlledLabel GatewayManagedLabelValue)

/-- Replaces one DataPlane in the cluster list (client.Update). -/
def updateDataPlaneIn (all : List DataPlaneObj) (old new : DataPlaneObj) :
    List DataPlaneObj :=
  all.map fun d => if d = old then new else d

/-- Replaces one ControlPlane in the cluster list (client.Update). -/
def updateControlPlaneIn (all : List ControlPlaneObj) (old new : ControlPlaneObj) :
    List ControlPlaneObj :=
  all.map fun c => if c = old then new else c

/-- ensureDataPlaneForGateway: lists the Gateway-owned DataPlanes, deletes all
gateway-managed DataPlanes of the namespace on a multiplicity violation,
merges metadata and configuration options into a single survivor, and
otherwise creates the freshly generated DataPlane. -/
def ensureDataPlaneForGateway (gw : GatewayObj)
    (gatewayConfig : GatewayConfigurationObj) (cluster : Cluster)
    (w : WriteResults) : Except OpErr DataPlaneObj × Cluster :=
  let dataplanes := ListDataPlanesForGateway gw cluster.dataplanes
  let count := dataplanes.length
  let afterDelete : Except OpErr Cluster :=
    if count > 1 then
      match w.deleteAllErr with
      | some e => .error (.k8s e)
      | none =>
          .ok { cluster with
            dataplanes := deleteAllDataPlanesByGatewayLabel gw.meta.nspace cluster.dataplanes }
    else .ok cluster
  match afterDelete with
  | .error e => (.error e, cluster)
  | .ok cluster1 =>
    let generatedDataplane0 := GenerateNewDataPlaneForGateway gw gatewayConfig
    let generatedDataplane :=
      { generatedDataplane0 with
        meta := LabelObjectAsGatewayManaged
          (SetOwnerForObject generatedDataplane0.meta gw.meta.uid) }
    match dataplanes with
    | [existingDataplane] =>
      let (updated0, newMeta) :=
        EnsureObjectMetaIsUpdated existingDataplane.meta generatedDataplane.meta
      let (updated, newSpec) :=
        match gatewayConfig.dataPlaneOptions with
        | some opts =>
            if !dataplaneSpecDeepEqual existingDataplane.spec opts then (true, opts)
            else (updated0, existingDataplane.spec)
        | none => (updated0, existingDataplane.spec)
      let existingDataplane1 := { existingDataplane with meta := newMeta, spec := newSpec }
      if updated then
        match w.updateErr with
        | some e => (.error (.k8s e), cluster1)
        | none =>
            (.ok existingDataplane1,
              { cluster1 with
                dataplanes := updateDataPlaneIn cluster1.dataplanes existingDataplane existingDataplane1 })
      else (.ok existingDataplane1, cluster1)
    | _ =>
      match w.createErr with
      | some e => (.error (.k8s e), cluster1)
      | none =>
          (.ok generatedDataplane,
            { cluster1 with dataplanes := cluster1.dataplanes ++ [generatedDataplane] })

/-- ensureControlPlaneForGateway: lists the Gateway-owned ControlPlanes; on a
multiplicity violation the Go code issues DeleteAllOf on the DataPlane kind
with the gateway-managed label (the delete block names the ControlPlane kind
only in its comment), then merges a single survivor or creates the freshly
generated ControlPlane. -/
def ensureControlPlaneForGateway (gatewayClass : GatewayClassObj)
    (gw : GatewayObj) (gatewayConfig : GatewayConfigurationObj)
    (dataplaneName : String) (cluster : Cluster)
    (w : WriteResults) : Except OpErr ControlPlaneObj × Cluster :=
  let controlplanes := ListControlPlanesForGateway gw cluster.controlplanes
  let count := controlplanes.length
  let afterDelete : Except OpErr Cluster :=
    if count > 1 then
      match w.deleteAllErr with
      | some e => .error (.k8s e)
      | none =>
          .ok { cluster with
            dataplanes := deleteAllDataPlanesByGatewayLabel gw.meta.nspace cluster.dataplanes }
    else .ok cluster
  match afterDelete with
  | .error e => (.error e, cluster)
  | .ok cluster1 =>
    let generatedControlplane0 :=
      GenerateNewControlPlaneForGateway gatewayClass gw gatewayConfig dataplaneName
    let generatedControlplane :=
      { generatedControlplane0 with
        meta := LabelObjectAsGatewayManaged
          (SetOwnerForObject generatedControlplane0.meta gw.meta.uid) }
    match controlplanes with
    | [existingControlplane] =>
      let (updated0, newMeta) :=
        EnsureObjectMetaIsUpdated existingControlplane.meta generatedControlplane.meta
      let (updated, newSpec) :=
        match gatewayConfig.controlPlaneOptions with
        | some opts =>
            if !controlplaneSpecDeepEqual existingControlplane.spec opts then (true, opts)
            else (updated0, existingControlplane.spec)
        | none => (updated0, existingControlplane.spec)
      let existingControlplane1 :=
        { existingControlplane with meta := newMeta, spec := newSpec }
      if updated then
        match w.updateErr with
        | some e => (.error (.k8s e), cluster1)
        | none =>
            (.ok existingControlplane1,
              { cluster1 with
                controlplanes :=
                  updateControlPlaneIn cluster1.controlplanes existingControlplane
                    existingControlplane1 })
      else (.ok existingControlplane1, cluster1)
    | _ =>
      match w.createErr with
      | some e => (.error (.k8s e), cluster1)
      | none =>
          (.ok generatedControlplane,
            { cluster1 with controlplanes := cluster1.controlplanes ++ [generatedControlplane] })

/-- verifyGatewayClassSupport: empty gatewayClassName or a controller name
mismatch yields ErrUnsupportedGateway; a failed GatewayClass lookup propagates
the lookup error unchanged. -/
def verifyGatewayClassSupport (controllerName : String) (gw : GatewayObj)
    (lookup : Except K8sError GatewayClassObj) : Except OpErr GatewayClassObj :=
  if gw.gatewayClassName = "" then .error .unsupportedGateway
  else
    match lookup with
    | .error e => .error (.k8s e)
    | .ok gwc =>
      if gwc.controllerName ≠ controllerName then .error .unsupportedGateway
      else .ok gwc

/-- getGatewayConfigForGatewayClass: a GatewayClass without parametersRef
yields ErrObjectMissingParametersRef; a parametersRef of the wrong group or
kind yields the bad-request status error; a parametersRef without namespace or
name yields the invalid-ref error; otherwise the referenced
GatewayConfiguration is fetched. -/
def getGatewayConfigForGatewayClass (gatewayClass : GatewayClassObj)
    (getConfig : Except K8sError GatewayConfigurationObj) :
    Except OpErr GatewayConfigurationObj :=
  match gatewayClass.parametersRef with
  | none => .error .missingParametersRef
  | some ref =>
    if ref.group ≠ SchemeGroupVersionGroup || ref.kind ≠ "GatewayConfiguration" then
      .error .invalidParametersRefKind
    else if ref.nspace = none || ref.nspace = some "" || ref.name = "" then
      .error .invalidParametersRefTarget
    else
      match getConfig with
      | .error e => .error (.k8s e)
      | .ok cfg => .ok cfg

/-- getOrCreateGatewayConfiguration: a missing parametersRef falls back to the
empty configuration; every other error propagates. -/
def getOrCreateGatewayConfiguration (gatewayClass : GatewayClassObj)
    (getConfig : Except K8sError GatewayConfigurationObj) :
    Except OpErr GatewayConfigurationObj :=
  match getGatewayConfigForGatewayClass gatewayClass getConfig with
  | .error .missingParametersRef => .ok emptyGatewayConfiguration
  | .error e => .error e
  | .ok cfg => .ok cfg

/-- Modelled from the spec: setDataplaneGatewayConfigDefaults (outside the
provided source files) applies documented image defaults to the configuration
dataplane options; the defaults touch none of the modelled fields, so it is
the identity. -/
def setDataplaneGatewayConfigDefaults (gatewayConfig : GatewayConfigurationObj) :
    GatewayConfigurationObj := gatewayConfig

/-- Modelled from the spec: setControlplaneGatewayConfigDefaults (outside the
provided source files) points the configuration controlplane env at the
DataPlane service; the claims below never read the fields it touches, so it is
the identity. -/
def setControlplaneGatewayConfigDefaults (_gw : GatewayObj)
    (gatewayConfig : GatewayConfigurationObj) (_dataplaneName _serviceName : String) :
    GatewayConfigurationObj := gatewayConfig

/-- ensureGatewayMarkedReady: when the Gateway is not already Ready, resolve
the single owned Service of the DataPlane (zero or several is a hard error),
require its cluster IP, derive the address list (first load-balancer ingress
IP when present, then always the cluster IP), prune the status conditions and
replace them with the single Ready condition, then persist the status. The
returned option is the persisted Gateway (none when the Gateway was already
Ready and the pass wrote nothing). -/
def ensureGatewayMarkedReady (now : Int) (gw : GatewayObj)
    (dataplane : DataPlaneObj) (services : List ServiceObj)
    (updateErr : Option K8sError) : Except OpErr (Option GatewayObj) :=
  if !IsGatewayReady gw then
    let svcs :=
      ListServicesForOwner GatewayOperatorControlledLabel DataPlaneManagedLabelValue
        dataplane.meta.nspace dataplane.meta.uid services
    let count := svcs.length
    if count > 1 then .error (.tooManyServices count)
    else
      match svcs with
      | [] => .error .noServices
      | svc :: _ =>
        if svc.clusterIP = "" then .error .serviceWithoutClusterIP
        else
          let gatewayIPs : List String :=
            match svc.lbIngressIPs with
            | [] => []
            | ip :: _ => [ip]
          let newAddresses :=
            (gatewayIPs ++ [svc.clusterIP]).map fun ip =>
              { addrType := IPAddressType, value := ip : GatewayAddress }
          let gw1 := PruneGatewayStatusConds { gw with addresses := newAddresses }
          let gw2 := { gw1 with conditions := [gatewayReadyCondition gw.generation now] }
          match updateErr with
          | some e => .error (.k8s e)
          | none => .ok (some gw2)
  else .ok none

-- -----------------------------------------------------------------------------
-- Gateway reconciler - Reconcile (the unnamed gateway controller file)
-- -----------------------------------------------------------------------------

/-- Status write of one Gateway reconcile pass. -/
inductive GwStatusWrite where
  | scheduled (g : GatewayObj)
  | ready (g : GatewayObj)
deriving DecidableEq, Repr

/-- Environment of one Gateway reconcile pass. -/
structure GwEnv where
  now : Int
  controllerName : String
  getGateway : Except K8sError GatewayObj
  getGatewayClass : Except K8sError GatewayClassObj
  getGatewayConfig : Except K8sError GatewayConfigurationObj
  scheduledUpdateErr : Option K8sError
  dpWrites : WriteResults
  cpWrites : WriteResults
  readyUpdateErr : Option K8sError
deriving Repr

/-- Result of one Gateway reconcile pass: the returned ctrl.Result and error,
the single status write performed, the child DataPlane and ControlPlane the
pass worked with, and the resulting cluster state. -/
structure GwResult where
  res : CtrlResult
  err : Option OpErr
  statusWrite : Option GwStatusWrite
  dpUsed : Option DataPlaneObj
  cpUsed : Option ControlPlaneObj
  cluster : Cluster
deriving DecidableEq, Repr

/-- Reconcile of the Gateway reconciler, translated line by line: resource
fetch, GatewayClass support check with silent ignore of unsupported Gateways,
one-shot Scheduled marking, configuration resolution, DataPlane ensure and
readiness gate, owned Service resolution, ControlPlane ensure and readiness
gate, and the final Ready marking. -/
def gatewayReconcile (env : GwEnv) (cluster : Cluster) : GwResult :=
  match env.getGateway with
  | .error .notFound => ⟨emptyCtrlResult, none, none, none, none, cluster⟩
  | .error e => ⟨emptyCtrlResult, some (.k8s e), none, none, none, cluster⟩
  | .ok gateway =>
    match verifyGatewayClassSupport env.controllerName gateway env.getGatewayClass with
    | .error .unsupportedGateway => ⟨emptyCtrlResult, none, none, none, none, cluster⟩
    | .error e => ⟨emptyCtrlResult, some e, none, none, none, cluster⟩
    | .ok gatewayClass =>
      if !IsGatewayScheduled gateway then
        let gateway1 :=
          PruneGatewayStatusConds
            { gateway with conditions :=
                gateway.conditions ++
                  [gatewayScheduledCondition env.controllerName gateway.generation env.now] }
        match env.scheduledUpdateErr with
        | some e => ⟨emptyCtrlResult, some (.k8s e), none, none, none, cluster⟩
        | none => ⟨emptyCtrlResult, none, some (.scheduled gateway1), none, none, cluster⟩
      else
        match getOrCreateGatewayConfiguration gatewayClass env.getGatewayConfig with
        | .error e => ⟨emptyCtrlResult, some e, none, none, none, cluster⟩
        | .ok gatewayConfig0 =>
          let gatewayConfig := setDataplaneGatewayConfigDefaults gatewayConfig0
          match ensureDataPlaneForGateway gateway gatewayConfig cluster env.dpWrites with
          | (.error e, cluster1) => ⟨emptyCtrlResult, some e, none, none, none, cluster1⟩
          | (.ok dataplane, cluster1) =>
            let dataplaneReady := dataplane.conditions.any fun c =>
              c.ctype = DataPlaneConditionTypeProvisioned && c.status = ConditionTrue
            if !dataplaneReady then
              ⟨requeueResult, none, none, some dataplane, none, cluster1⟩
            else
              let services :=
                ListServicesForOwner GatewayOperatorControlledLabel
                  DataPlaneManagedLabelValue dataplane.meta.nspace dataplane.meta.uid
                  cluster1.services
              let count := services.length
              if count > 1 then
                ⟨emptyCtrlResult, some (.tooManyServices count), none, some dataplane, none,
                  cluster1⟩
              else
                match services with
                | [] =>
                    ⟨emptyCtrlResult, some .noServices, none, some dataplane, none, cluster1⟩
                | service :: _ =>
                  let gatewayConfig2 :=
                    setControlplaneGatewayConfigDefaults gateway gatewayConfig
                      dataplane.meta.name service.meta.name
                  match ensureControlPlaneForGateway gatewayClass gateway gatewayConfig2
                      dataplane.meta.name cluster1 env.cpWrites with
                  | (.error e, cluster2) =>
                      ⟨emptyCtrlResult, some e, none, some dataplane, none, cluster2⟩
                  | (.ok controlplane, cluster2) =>
                    let controlplaneReady := controlplane.conditions.any fun c =>
                      c.ctype = ControlPlaneConditionTypeProvisioned &&
                        c.status = ConditionTrue
                    if !controlplaneReady then
                      ⟨requeueResult, none, none, some dataplane, some controlplane, cluster2⟩
                    else
                      match ensureGatewayMarkedReady env.now gateway dataplane
                          cluster2.services env.readyUpdateErr with
                      | .error e =>
                          ⟨emptyCtrlResult, some e, none, some dataplane, some controlplane,
                            cluster2⟩
                      | .ok none =>
                          ⟨emptyCtrlResult, none, none, some dataplane, some controlplane,
                            cluster2⟩
                      | .ok (some g) =>
                          ⟨emptyCtrlResult, none, some (.ready g), some dataplane,
                            some controlplane, cluster2⟩

-- -----------------------------------------------------------------------------
-- Claim theorems
-- -----------------------------------------------------------------------------

/-- Invariant 3 of the data model: a condition list carries at most one entry
per condition type. -/
def atMostOnePerType (conds : List Condition) : Prop :=
  ∀ t : String, (conds.filter fun c => c.ctype = t).length ≤ 1

/-- Shape of the scheduled-marking condition rewrite. -/
theorem ensureDataPlaneIsMarkedScheduledConds_snd (gen now : Int)
    (conds : List Condition) :
    (ensureDataPlaneIsMarkedScheduledConds gen now conds).2 =
      if conds.any fun c => c.ctype = DataPlaneConditionTypeProvisioned then conds
      else conds ++ [scheduledProvisionedCondition gen now] := by
  unfold ensureDataPlaneIsMarkedScheduledConds
  cases conds.any fun c => c.ctype = DataPlaneConditionTypeProvisioned <;> simp

/-- Shape of the not-provisioned condition rewrite. -/
theorem ensureDataPlaneIsMarkedNotProvisionedConds_snd (reason message : String)
    (gen now : Int) (conds : List Condition) :
    (ensureDataPlaneIsMarkedNotProvisionedConds reason message gen now conds).2 =
      if conds.any fun c => c.ctype = DataPlaneConditionTypeProvisioned then
        conds.map fun c =>
          if c.ctype = DataPlaneConditionTypeProvisioned &&
              !isSameDataPlaneCondition (notProvisionedCondition reason message gen now) c then
            notProvisionedCondition reason message gen now
          else c
      else conds ++ [notProvisionedCondition reason message gen now] := by
  unfold ensureDataPlaneIsMarkedNotProvisionedConds
  cases conds.any fun c => c.ctype = DataPlaneConditionTypeProvisioned <;> simp

theorem length_filter_map_ctype_eq (f : Condition → Condition)
    (hf : ∀ c, (f c).ctype = c.ctype) (t : String) (l : List Condition) :
    ((l.map f).filter fun c => c.ctype = t).length =
      (l.filter fun c => c.ctype = t).length := by
  induction l with
  | nil => simp
  | cons c rest ih =>
    by_cases h : c.ctype = t
    · have h2 : (f c).ctype = t := by rw [hf c]; exact h
      simp [List.filter, h, h2, ih]
    · have h2 : ¬(f c).ctype = t := by rw [hf c]; exact h
      simp [List.filter, h, h2, ih]

theorem filter_eq_nil_of_no_provisioned (conds : List Condition)
    (h : (conds.any fun c => c.ctype = DataPlaneConditionTypeProvisioned) = false) :
    (conds.filter fun c => c.ctype = DataPlaneConditionTypeProvisioned) = [] := by
  induction conds with
  | nil => simp
  | cons c rest ih =>
    simp only [List.any_cons, Bool.or_eq_false_iff] at h
    simp [List.filter, h.1, ih h.2]

theorem append_one_provisioned_at_most_one (conds : List Condition)
    (newC : Condition) (hnew : newC.ctype = DataPlaneConditionTypeProvisioned)
    (hany : (conds.any fun c => c.ctype = DataPlaneConditionTypeProvisioned) = false)
    (h : atMostOnePerType conds) :
    atMostOnePerType (conds ++ [newC]) := by
  intro t
  rw [List.filter_append, List.length_append]
  by_cases ht : t = DataPlaneConditionTypeProvisioned
  · subst ht
    rw [filter_eq_nil_of_no_provisioned conds hany]
    have h1 : (([newC]).filter
        fun c => c.ctype = DataPlaneConditionTypeProvisioned).length ≤ 1 := by
      simpa using List.length_filter_le _ [newC]
    simpa using h1
  · have hne : ¬(newC.ctype = t) := by
      rw [hnew]; exact fun hq => ht hq.symm
    have h0 : (([newC]).filter fun c => c.ctype = t) = [] := by
      simp [List.filter_singleton, hne]
    rw [h0]
    simpa using h t

/-- C7: the DataPlane condition-writing operations preserve the at-most-one
entry per condition type invariant: marking scheduled appends the Provisioned
condition only when no entry of that type exists, and marking not-provisioned
replaces the existing Provisioned entries in place, appending only when none
exists. -/
theorem dataplane_condition_ops_preserve_at_most_one_per_type :
    (∀ (gen now : Int) (conds : List Condition), atMostOnePerType conds →
      atMostOnePerType (ensureDataPlaneIsMarkedScheduledConds gen now conds).2) ∧
    (∀ (reason message : String) (gen now : Int) (conds : List Condition),
      atMostOnePerType conds →
      atMostOnePerType
        (ensureDataPlaneIsMarkedNotProvisionedConds reason message gen now conds).2) := by
  constructor
  · intro gen now conds h
    rw [ensureDataPlaneIsMarkedScheduledConds_snd]
    cases hany : conds.any fun c => c.ctype = DataPlaneConditionTypeProvisioned with
    | true => simpa [hany] using h
    | false =>
      rw [if_neg Bool.false_ne_true]
      exact append_one_provisioned_at_most_one conds _ rfl hany h
  · intro reason message gen now conds h
    rw [ensureDataPlaneIsMarkedNotProvisionedConds_snd]
    cases hany : conds.any fun c => c.ctype = DataPlaneConditionTypeProvisioned with
    | true =>
      simp only [hany, if_true]
      intro t
      rw [length_filter_map_ctype_eq _ ?hf t conds]
      · exact h t
      case hf =>
        intro c
        by_cases hc : (c.ctype = DataPlaneConditionTypeProvisioned &&
            !isSameDataPlaneCondition (notProvisionedCondition reason message gen now) c) = true
        · rw [if_pos hc]
          simp only [Bool.and_eq_true, decide_eq_true_eq] at hc
          simp [notProvisionedCondition, hc.1]
        · rw [if_neg hc]
    | false =>
      rw [if_neg Bool.false_ne_true]
      exact append_one_provisioned_at_most_one conds _ rfl hany h

/-- C7 witness: the invariant is preserved at concrete inputs. -/
theorem dataplane_condition_ops_preserve_at_most_one_per_type_witness :
    atMostOnePerType (ensureDataPlaneIsMarkedScheduledConds 1 0 []).2 ∧
    atMostOnePerType
      (ensureDataPlaneIsMarkedNotProvisionedConds "ValidationFailed" "bad spec" 1 0
        [scheduledProvisionedCondition 1 0]).2 :=
  ⟨dataplane_condition_ops_preserve_at_most_one_per_type.1 1 0 []
      (fun t => by simp),
   dataplane_condition_ops_preserve_at_most_one_per_type.2 "ValidationFailed" "bad spec" 1 0
      [scheduledProvisionedCondition 1 0]
      (fun t => by
        have h1 : (([scheduledProvisionedCondition 1 0]).filter
            fun c => c.ctype = t).length ≤ 1 := by
          simpa using List.length_filter_le _ [scheduledProvisionedCondition 1 0]
        exact h1)⟩

theorem scheduledConds_of_isScheduled (gen now : Int) (conds : List Condition)
    (h : (conds.any fun c => c.ctype = DataPlaneConditionTypeProvisioned) = true) :
    ensureDataPlaneIsMarkedScheduledConds gen now conds = (false, conds) := by
  unfold ensureDataPlaneIsMarkedScheduledConds
  rw [h]
  simp

theorem isSameDataPlaneCondition_fields (c1 c2 : Condition)
    (h : isSameDataPlaneCondition c1 c2 = true) :
    c2.ctype = c1.ctype ∧ c2.status = c1.status ∧ c2.reason = c1.reason ∧
      c2.message = c1.message := by
  unfold isSameDataPlaneCondition at h
  simp only [Bool.and_eq_true, decide_eq_true_eq] at h
  exact ⟨h.1.1.1.symm, h.1.1.2.symm, h.1.2.symm, h.2.symm⟩

theorem notProvisionedConds_contains (reason message : String) (gen now : Int)
    (conds : List Condition) :
    ∃ c ∈ (ensureDataPlaneIsMarkedNotProvisionedConds reason message gen now conds).2,
      c.ctype = DataPlaneConditionTypeProvisioned ∧ c.status = ConditionFalse ∧
      c.reason = reason ∧ c.message = message := by
  rw [ensureDataPlaneIsMarkedNotProvisionedConds_snd]
  cases hany : conds.any fun c => c.ctype = DataPlaneConditionTypeProvisioned with
  | false =>
    rw [if_neg Bool.false_ne_true]
    refine ⟨notProvisionedCondition reason message gen now, by simp, ?_⟩
    simp [notProvisionedCondition]
  | true =>
    rw [if_pos rfl]
    obtain ⟨c0, hc0mem, hc0⟩ := List.any_eq_true.mp hany
    have hc0t : c0.ctype = DataPlaneConditionTypeProvisioned := by simpa using hc0
    by_cases hsame :
        isSameDataPlaneCondition (notProvisionedCondition reason message gen now) c0 = true
    · have hfields := isSameDataPlaneCondition_fields _ _ hsame
      refine ⟨c0, List.mem_map.mpr ⟨c0, hc0mem, by simp [hsame]⟩, hc0t, ?_, ?_, ?_⟩
      · simpa [notProvisionedCondition] using hfields.2.1
      · simpa [notProvisionedCondition] using hfields.2.2.1
      · simpa [notProvisionedCondition] using hfields.2.2.2
    · refine ⟨notProvisionedCondition reason message gen now,
        List.mem_map.mpr ⟨c0, hc0mem, ?_⟩, ?_⟩
      · rw [if_pos]
        rw [Bool.and_eq_true]
        exact ⟨by simpa using hc0t, by simpa using hsame⟩
      · simp [notProvisionedCondition]

/-- C3: when the external spec validator rejects a DataPlane, the reconcile
pass emits the ValidationFailed warning event with the validator message, the
resulting DataPlane carries a Provisioned condition that is False with reason
ValidationFailed and the validator message verbatim, and neither the TLS
certificate nor the Deployment ensure step is reached in that pass. -/
theorem dataplane_validation_failure_semantics :
    ∀ (env : DPEnv) (dp : DataPlaneObj) (svc : ServiceObj) (msg : String),
      env.getDataPlane = .ok dp →
      (dp.conditions.any fun c => c.ctype = DataPlaneConditionTypeProvisioned) = true →
      env.svcEnsure = .ok (false, svc) →
      svc.clusterIP ≠ "" →
      ¬(dp.spec.env = [] ∧ dp.spec.envFrom = []) →
      env.validateErr = some msg →
      DPAction.warningEvent "ValidationFailed" msg ∈ (dataPlaneReconcile env).trace ∧
      (∃ dp1, (dataPlaneReconcile env).dataplane = some dp1 ∧
        ∃ c ∈ dp1.conditions,
          c.ctype = DataPlaneConditionTypeProvisioned ∧ c.status = ConditionFalse ∧
          c.reason = DataPlaneConditionValidationFailed ∧ c.message = msg) ∧
      (∀ b, DPAction.ensureCertificateCalled b ∉ (dataPlaneReconcile env).trace) ∧
      (∀ b, DPAction.ensureDeploymentCalled b ∉ (dataPlaneReconcile env).trace) := by
  intro env dp svc msg hget hsched hsvc hip henv hval
  have henvB : (decide (dp.spec.env = []) && decide (dp.spec.envFrom = [])) = false := by
    cases h1 : decide (dp.spec.env = []) <;> cases h2 : decide (dp.spec.envFrom = []) <;>
      simp_all
  have hcontains := notProvisionedConds_contains DataPlaneConditionValidationFailed msg
      dp.generation env.now dp.conditions
  rcases hmk : ensureDataPlaneIsMarkedNotProvisionedConds DataPlaneConditionValidationFailed
      msg dp.generation env.now dp.conditions with ⟨su, conds1⟩
  rw [hmk] at hcontains
  unfold dataPlaneReconcile
  rw [hget]
  simp only [InitReady]
  rw [scheduledConds_of_isScheduled dp.generation env.now dp.conditions hsched]
  simp only [hsvc, hval, henvB, hmk, if_neg hip, Bool.false_eq_true, if_false]
  cases su with
  | false =>
    refine ⟨by simp, ⟨{ dp with conditions := conds1 }, by simp, ?_⟩, by simp, by simp⟩
    simpa using hcontains
  | true =>
    cases hupd : env.notProvUpdateErr with
    | some e =>
      simp only [hupd]
      refine ⟨by simp, ⟨{ dp with conditions := conds1 }, by simp, ?_⟩, by simp, by simp⟩
      simpa using hcontains
    | none =>
      simp only [hupd]
      refine ⟨by simp, ⟨{ dp with conditions := conds1 }, by simp, ?_⟩, by simp, by simp⟩
      simpa using hcontains

/-- C4: in every DataPlane reconcile pass the deployment-ensuring step is
reached only when the owned Service ensure returned an unchanged Service with
a non-empty cluster IP and the external validator returned nil; and a pass
that observes an unchanged Service without a cluster IP returns success with
no further step. -/
theorem dataplane_deployment_gated_on_service_and_validation :
    (∀ (env : DPEnv) (b : Bool),
      DPAction.ensureDeploymentCalled b ∈ (dataPlaneReconcile env).trace →
      env.validateErr = none ∧
        ∃ svc : ServiceObj, env.svcEnsure = .ok (false, svc) ∧ svc.clusterIP ≠ "") ∧
    (∀ (env : DPEnv) (dp : DataPlaneObj) (svc : ServiceObj),
      env.getDataPlane = .ok dp →
      (dp.conditions.any fun c => c.ctype = DataPlaneConditionTypeProvisioned) = true →
      env.svcEnsure = .ok (false, svc) →
      svc.clusterIP = "" →
      dataPlaneReconcile env =
        ⟨emptyCtrlResult, none, some dp, [.ensureServiceCalled false]⟩) := by
  constructor
  · intro env b h
    obtain ⟨now, getDP, schErr, svcE, svcSE, specE, valE, npE, certE, depE, finE⟩ := env
    cases getDP with
    | error e =>
      cases e <;> simp [dataPlaneReconcile] at h
    | ok dp =>
      cases hsc : dp.conditions.any fun c => c.ctype = DataPlaneConditionTypeProvisioned with
      | false =>
        cases schErr <;>
          simp [dataPlaneReconcile, ensureDataPlaneIsMarkedScheduledConds, InitReady, hsc] at h
      | true =>
        cases svcE with
        | error e =>
          simp [dataPlaneReconcile, ensureDataPlaneIsMarkedScheduledConds, InitReady, hsc] at h
        | ok pr =>
          obtain ⟨createdOrUpdated, svc⟩ := pr
          cases createdOrUpdated with
          | true =>
            cases svcSE <;>
              simp [dataPlaneReconcile, ensureDataPlaneIsMarkedScheduledConds, InitReady,
                hsc] at h
          | false =>
            by_cases hip : svc.clusterIP = ""
            · simp [dataPlaneReconcile, ensureDataPlaneIsMarkedScheduledConds, InitReady,
                hsc, hip] at h
            · by_cases hempty : (decide (dp.spec.env = []) && decide (dp.spec.envFrom = [])) = true
              · rcases specE with _ | e
                · simp [dataPlaneReconcile, ensureDataPlaneIsMarkedScheduledConds, InitReady,
                    hsc, hip, hempty] at h
                · cases e <;>
                    simp [dataPlaneReconcile, ensureDataPlaneIsMarkedScheduledConds, InitReady,
                      hsc, hip, hempty] at h
              · cases valE with
                | some msg =>
                  rcases hmk : ensureDataPlaneIsMarkedNotProvisionedConds
                      DataPlaneConditionValidationFailed msg dp.generation now
                      dp.conditions with ⟨su, conds1⟩
                  cases su <;> rcases npE with _ | e <;>
                    simp [dataPlaneReconcile, ensureDataPlaneIsMarkedScheduledConds, InitReady,
                      hsc, hip, hempty, hmk] at h
                | none =>
                  cases certE with
                  | error e =>
                    simp [dataPlaneReconcile, ensureDataPlaneIsMarkedScheduledConds, InitReady,
                      hsc, hip, hempty] at h
                  | ok cpr =>
                    obtain ⟨cb, cert⟩ := cpr
                    cases cb with
                    | true =>
                      simp [dataPlaneReconcile, ensureDataPlaneIsMarkedScheduledConds, InitReady,
                        hsc, hip, hempty] at h
                    | false =>
                      cases depE with
                      | error e =>
                        simp [dataPlaneReconcile, ensureDataPlaneIsMarkedScheduledConds,
                          InitReady, hsc, hip, hempty] at h
                      | ok dpr =>
                        obtain ⟨db, dep⟩ := dpr
                        exact ⟨rfl, svc, rfl, hip⟩
  · intro env dp svc hget hsched hsvc hip
    unfold dataPlaneReconcile
    rw [hget]
    simp only [InitReady]
    rw [scheduledConds_of_isScheduled dp.generation env.now dp.conditions hsched]
    simp only [hsvc, Bool.false_eq_true, if_false, if_pos hip]

/-- Concrete metadata used by the DataPlane pass witnesses. -/
def dpPassMeta : ObjMeta :=
  { name := "dp", nspace := "ns", generateName := "", uid := "dpuid",
    labels := [], ownerUIDs := [] }

/-- Concrete DataPlane whose spec carries env entries and whose status is
already marked scheduled. -/
def dpScheduled : DataPlaneObj :=
  { meta := dpPassMeta, generation := 1,
    spec := { env := [("KONG_DATABASE", "off")], envFrom := [] },
    conditions := [scheduledProvisionedCondition 1 0] }

/-- Concrete owned Service with an assigned cluster IP. -/
def svcWithIP : ServiceObj :=
  { meta := dpPassMeta, clusterIP := "10.0.0.1", lbIngressIPs := [] }

/-- Concrete owned Service without a cluster IP yet. -/
def svcNoIP : ServiceObj :=
  { meta := dpPassMeta, clusterIP := "", lbIngressIPs := [] }

/-- Concrete owned Deployment that has not yet reported replicas. -/
def depNotReady : DeploymentObj :=
  { meta := dpPassMeta, specReplicas := none, containerEnv := [],
    statusReplicas := 0, availableReplicas := 0 }

/-- Concrete owned Deployment with all replicas available. -/
def depReady : DeploymentObj :=
  { meta := dpPassMeta, specReplicas := none, containerEnv := [],
    statusReplicas := 1, availableReplicas := 1 }

/-- Concrete pass environment in which the validator rejects the spec. -/
def envValidationFails : DPEnv :=
  { now := 0, getDataPlane := .ok dpScheduled, scheduledUpdateErr := none,
    svcEnsure := .ok (false, svcWithIP), svcStatusUpdateErr := none,
    specUpdateErr := none, validateErr := some "bad spec",
    notProvUpdateErr := none, certEnsure := .ok (false, { name := "cert" }),
    depEnsure := .ok (false, depNotReady), finalUpdateErr := none }

/-- C3 witness: concrete run of the pass with a failing validator. -/
theorem dataplane_validation_failure_semantics_witness :
    DPAction.warningEvent "ValidationFailed" "bad spec" ∈
      (dataPlaneReconcile envValidationFails).trace ∧
    (∃ dp1, (dataPlaneReconcile envValidationFails).dataplane = some dp1 ∧
      ∃ c ∈ dp1.conditions,
        c.ctype = DataPlaneConditionTypeProvisioned ∧ c.status = ConditionFalse ∧
        c.reason = DataPlaneConditionValidationFailed ∧ c.message = "bad spec") ∧
    (∀ b, DPAction.ensureCertificateCalled b ∉ (dataPlaneReconcile envValidationFails).trace) ∧
    (∀ b, DPAction.ensureDeploymentCalled b ∉ (dataPlaneReconcile envValidationFails).trace) :=
  dataplane_validation_failure_semantics envValidationFails dpScheduled svcWithIP "bad spec"
    rfl (by decide) rfl (by decide) (by decide) rfl

/-- Concrete pass environment that reaches the deployment ensure step. -/
def envReachesDeployment : DPEnv :=
  { now := 0, getDataPlane := .ok dpScheduled, scheduledUpdateErr := none,
    svcEnsure := .ok (false, svcWithIP), svcStatusUpdateErr := none,
    specUpdateErr := none, validateErr := none,
    notProvUpdateErr := none, certEnsure := .ok (false, { name := "cert" }),
    depEnsure := .ok (false, depNotReady), finalUpdateErr := none }

/-- Concrete pass environment in which the owned Service has no cluster IP. -/
def envServiceNoIP : DPEnv :=
  { envReachesDeployment with svcEnsure := .ok (false, svcNoIP) }

/-- C4 witness: concrete runs of the pass through the deployment step and
through the missing-cluster-IP return. -/
theorem dataplane_deployment_gated_witness :
    (envReachesDeployment.validateErr = none ∧
      ∃ svc : ServiceObj, envReachesDeployment.svcEnsure = .ok (false, svc) ∧
        svc.clusterIP ≠ "") ∧
    dataPlaneReconcile envServiceNoIP =
      ⟨emptyCtrlResult, none, some dpScheduled, [.ensureServiceCalled false]⟩ :=
  ⟨dataplane_deployment_gated_on_service_and_validation.1 envReachesDeployment false
      (by decide),
   dataplane_deployment_gated_on_service_and_validation.2 envServiceNoIP dpScheduled svcNoIP
      rfl (by decide) rfl rfl⟩

/-- C9 (amended): version-mismatch conflicts are turned into an immediate
requeue with no backoff and no returned error at exactly the two sites that
special-case them, the spec-defaulting update and the final provisioned
status update, where any non-conflict error propagates to the caller; a
conflict on the scheduled-marking status update instead propagates to the
caller as an error. -/
theorem dataplane_conflict_requeue_sites :
    (∀ (env : DPEnv) (dp : DataPlaneObj) (svc : ServiceObj),
      env.getDataPlane = .ok dp →
      (dp.conditions.any fun c => c.ctype = DataPlaneConditionTypeProvisioned) = true →
      env.svcEnsure = .ok (false, svc) → svc.clusterIP ≠ "" →
      dp.spec.env = [] → dp.spec.envFrom = [] →
      ((env.specUpdateErr = some .conflict →
        (dataPlaneReconcile env).res = requeueResult ∧
          (dataPlaneReconcile env).err = none) ∧
       (∀ e : K8sError, env.specUpdateErr = some e → e ≠ .conflict →
        (dataPlaneReconcile env).res = emptyCtrlResult ∧
          (dataPlaneReconcile env).err = some (.k8s e)))) ∧
    (∀ (env : DPEnv) (dp : DataPlaneObj) (svc : ServiceObj) (cert : SecretObj)
        (dep : DeploymentObj),
      env.getDataPlane = .ok dp →
      (dp.conditions.any fun c => c.ctype = DataPlaneConditionTypeProvisioned) = true →
      env.svcEnsure = .ok (false, svc) → svc.clusterIP ≠ "" →
      ¬(dp.spec.env = [] ∧ dp.spec.envFrom = []) →
      env.validateErr = none →
      env.certEnsure = .ok (false, cert) →
      env.depEnsure = .ok (false, dep) →
      dep.statusReplicas ≠ 0 →
      ¬(dep.availableReplicas < dep.statusReplicas) →
      ((env.finalUpdateErr = some .conflict →
        (dataPlaneReconcile env).res = requeueResult ∧
          (dataPlaneReconcile env).err = none) ∧
       (∀ e : K8sError, env.finalUpdateErr = some e → e ≠ .conflict →
        (dataPlaneReconcile env).res = emptyCtrlResult ∧
          (dataPlaneReconcile env).err = some (.k8s e)))) ∧
    (∀ (env : DPEnv) (dp : DataPlaneObj),
      env.getDataPlane = .ok dp →
      (dp.conditions.any fun c => c.ctype = DataPlaneConditionTypeProvisioned) = false →
      env.scheduledUpdateErr = some .conflict →
      (dataPlaneReconcile env).res = emptyCtrlResult ∧
        (dataPlaneReconcile env).err = some (.k8s .conflict)) := by
  refine ⟨?_, ?_, ?_⟩
  · intro env dp svc hget hsched hsvc hip henv henvFrom
    have hemp : (decide (dp.spec.env = []) && decide (dp.spec.envFrom = [])) = true := by
      simp [henv, henvFrom]
    constructor
    · intro hconf
      unfold dataPlaneReconcile
      rw [hget]
      simp only [InitReady]
      rw [scheduledConds_of_isScheduled dp.generation env.now dp.conditions hsched]
      simp only [hsvc, Bool.false_eq_true, if_false, if_neg hip, hemp, if_true, hconf]
      exact ⟨trivial, trivial⟩
    · intro e he hne
      unfold dataPlaneReconcile
      rw [hget]
      simp only [InitReady]
      rw [scheduledConds_of_isScheduled dp.generation env.now dp.conditions hsched]
      simp only [hsvc, Bool.false_eq_true, if_false, if_neg hip, hemp, if_true, he]
      cases e with
      | conflict => exact absurd rfl hne
      | notFound => exact ⟨trivial, trivial⟩
      | other msg => exact ⟨trivial, trivial⟩
  · intro env dp svc cert dep hget hsched hsvc hip henv hval hcert hdep hsr har
    have hempB : (decide (dp.spec.env = []) && decide (dp.spec.envFrom = [])) = false := by
      cases h1 : decide (dp.spec.env = []) <;> cases h2 : decide (dp.spec.envFrom = []) <;>
        simp_all
    have hready : (decide (dep.statusReplicas = 0) ||
        decide (dep.availableReplicas < dep.statusReplicas)) = false := by
      cases h1 : decide (dep.statusReplicas = 0) <;>
        cases h2 : decide (dep.availableReplicas < dep.statusReplicas) <;> simp_all <;> omega
    constructor
    · intro hconf
      unfold dataPlaneReconcile
      rw [hget]
      simp only [InitReady]
      rw [scheduledConds_of_isScheduled dp.generation env.now dp.conditions hsched]
      simp only [hsvc, Bool.false_eq_true, if_false, if_neg hip, hempB, hval, hcert, hdep,
        hready, hconf]
      exact ⟨trivial, trivial⟩
    · intro e he hne
      unfold dataPlaneReconcile
      rw [hget]
      simp only [InitReady]
      rw [scheduledConds_of_isScheduled dp.generation env.now dp.conditions hsched]
      simp only [hsvc, Bool.false_eq_true, if_false, if_neg hip, hempB, hval, hcert, hdep,
        hready, he]
      cases e with
      | conflict => exact absurd rfl hne
      | notFound => exact ⟨trivial, trivial⟩
      | other msg => exact ⟨trivial, trivial⟩
  · intro env dp hget hsched hconf
    unfold dataPlaneReconcile
    rw [hget]
    simp only [InitReady, ensureDataPlaneIsMarkedScheduledConds, hsched, Bool.not_false,
      if_true, hconf]
    exact ⟨trivial, trivial⟩

/-- Concrete DataPlane with an empty condition list. -/
def dpUnscheduled : DataPlaneObj :=
  { meta := dpPassMeta, generation := 1,
    spec := { env := [("KONG_DATABASE", "off")], envFrom := [] }, conditions := [] }

/-- Concrete pass environment in which the scheduled-marking status update
hits an optimistic-concurrency conflict. -/
def envScheduledConflict : DPEnv :=
  { envReachesDeployment with
    getDataPlane := .ok dpUnscheduled
    scheduledUpdateErr := some .conflict }

/-- C9 counterexample: a conflict on the scheduled-marking status update is
returned to the caller as an error with no requeue, refuting the claim that
every status-update conflict in the pass yields an immediate no-error
requeue. -/
theorem dataplane_conflict_requeue_counterexample :
    (dataPlaneReconcile envScheduledConflict).err = some (.k8s .conflict) ∧
    (dataPlaneReconcile envScheduledConflict).res.requeue = false := by
  decide

/-- Concrete pass environment with a conflict on the spec-defaulting update. -/
def envSpecConflict : DPEnv :=
  { envReachesDeployment with
    getDataPlane := .ok
      { dpScheduled with spec := { env := [], envFrom := [] } }
    specUpdateErr := some .conflict }

/-- Concrete pass environment with a conflict on the final provisioned status
update. -/
def envFinalConflict : DPEnv :=
  { envReachesDeployment with
    depEnsure := .ok (false, depReady)
    finalUpdateErr := some .conflict }

/-- C9 witness: the two conflict-requeue sites and the scheduled-site
deviation at concrete environments. -/
theorem dataplane_conflict_requeue_sites_witness :
    ((dataPlaneReconcile envSpecConflict).res = requeueResult ∧
      (dataPlaneReconcile envSpecConflict).err = none) ∧
    ((dataPlaneReconcile envFinalConflict).res = requeueResult ∧
      (dataPlaneReconcile envFinalConflict).err = none) ∧
    ((dataPlaneReconcile envScheduledConflict).res = emptyCtrlResult ∧
      (dataPlaneReconcile envScheduledConflict).err = some (.k8s .conflict)) :=
  ⟨(dataplane_conflict_requeue_sites.1 envSpecConflict
      { dpScheduled with spec := { env := [], envFrom := [] } } svcWithIP
      rfl (by decide) rfl (by decide) rfl rfl).1 rfl,
   (dataplane_conflict_requeue_sites.2.1 envFinalConflict dpScheduled svcWithIP
      { name := "cert" } depReady rfl (by decide) rfl (by decide) (by decide) rfl rfl rfl
      (by decide) (by decide)).1 rfl,
   dataplane_conflict_requeue_sites.2.2 envScheduledConflict dpUnscheduled rfl (by decide) rfl⟩

theorem mem_ListDeploymentsForOwner (k v ns uid : String) (all : List DeploymentObj)
    (d : DeploymentObj) :
    d ∈ ListDeploymentsForOwner k v ns uid all ↔
      d ∈ all ∧ d.meta.nspace = ns ∧ hasLabel d.meta k v = true ∧
        IsOwnedByRefUID d.meta uid = true := by
  simp only [ListDeploymentsForOwner, List.mem_filter, Bool.and_eq_true, decide_eq_true_eq]
  tauto

theorem not_mem_deleteAllDeployments (ns lv : String) (all : List DeploymentObj)
    (d : DeploymentObj) (hns : d.meta.nspace = ns)
    (hlab : hasLabel d.meta GatewayOperatorControlledLabel lv = true) :
    d ∉ deleteAllDeploymentsByLabel ns lv all := by
  intro hmem
  obtain ⟨_, hp⟩ := List.mem_filter.mp hmem
  simp [hns, hlab] at hp

theorem mem_updateDeploymentIn_cases (all : List DeploymentObj)
    (old new d : DeploymentObj) (h : d ∈ updateDeploymentIn all old new) :
    d = new ∨ (d ∈ all ∧ d ≠ old) := by
  unfold updateDeploymentIn at h
  obtain ⟨x, hx, hfx⟩ := List.mem_map.mp h
  by_cases hxo : x = old
  · left
    rw [if_pos hxo] at hfx
    exact hfx.symm
  · right
    rw [if_neg hxo] at hfx
    subst hfx
    exact ⟨hx, hxo⟩

/-- C5: a ControlPlane without a DataPlane reference converges every owned
Deployment to zero replicas regardless of the configured replica count (zero
is forced on create and an existing Deployment is scaled down to zero); and
once a reference is set, the next pass unsets the replica override of a
Deployment whose replicas are currently zero. -/
theorem controlplane_deployment_dormancy :
    (∀ (cp : ControlPlaneObj) (sa : String) (all : List DeploymentObj),
      dataplaneRefIsSet cp.spec.dataPlane = false →
      ∀ d ∈ (ensureDeploymentForControlPlane cp sa all noWriteErr).2,
        d.meta.nspace = cp.meta.nspace →
        hasLabel d.meta GatewayOperatorControlledLabel ControlPlaneManagedLabelValue = true →
        IsOwnedByRefUID d.meta cp.meta.uid = true →
        d.specReplicas = some 0) ∧
    (∀ (cp : ControlPlaneObj) (sa : String) (all : List DeploymentObj)
        (existing : DeploymentObj),
      dataplaneRefIsSet cp.spec.dataPlane = true →
      ListDeploymentsForOwner GatewayOperatorControlledLabel ControlPlaneManagedLabelValue
        cp.meta.nspace cp.meta.uid all = [existing] →
      existing.specReplicas = some 0 →
      ∃ d, (ensureDeploymentForControlPlane cp sa all noWriteErr).1 = .ok (true, d) ∧
        d.specReplicas = none) := by
  constructor
  · intro cp sa all hset d hd hns hlab hown
    rcases hlist : ListDeploymentsForOwner GatewayOperatorControlledLabel
        ControlPlaneManagedLabelValue cp.meta.nspace cp.meta.uid all with _ | ⟨e0, rest⟩
    · simp only [ensureDeploymentForControlPlane, hset, hlist, noWriteErr] at hd
      simp at hd
      rcases hd with hd | hd
      · exfalso
        have hin := (mem_ListDeploymentsForOwner _ _ _ _ all d).mpr ⟨hd, hns, hlab, hown⟩
        rw [hlist] at hin
        exact absurd hin (List.not_mem_nil d)
      · subst hd
        rfl
    · rcases rest with _ | ⟨e1, rest1⟩
      · simp only [ensureDeploymentForControlPlane, hset, hlist, noWriteErr,
          List.length_singleton] at hd
        by_cases hrep : e0.specReplicas = some numReplicasWhenNoDataplane
        · simp only [hrep] at hd
          simp at hd
          split at hd
          · rcases mem_updateDeploymentIn_cases _ _ _ d hd with h | ⟨hmem, hne⟩
            · subst h
              rfl
            · exfalso
              have hin := (mem_ListDeploymentsForOwner _ _ _ _ all d).mpr ⟨hmem, hns, hlab, hown⟩
              rw [hlist] at hin
              exact hne (List.mem_singleton.mp hin)
          · have hin := (mem_ListDeploymentsForOwner _ _ _ _ all d).mpr ⟨hd, hns, hlab, hown⟩
            rw [hlist] at hin
            rw [List.mem_singleton.mp hin]
            exact hrep
        · simp only [hrep] at hd
          simp [hrep] at hd
          rcases mem_updateDeploymentIn_cases _ _ _ d hd with h | ⟨hmem, hne⟩
          · subst h
            rfl
          · exfalso
            have hin := (mem_ListDeploymentsForOwner _ _ _ _ all d).mpr ⟨hmem, hns, hlab, hown⟩
            rw [hlist] at hin
            exact hne (List.mem_singleton.mp hin)
      · simp only [ensureDeploymentForControlPlane, hset, hlist, noWriteErr,
          List.length_cons] at hd
        simp at hd
        rcases hd with hd | hd
        · exact absurd hd (not_mem_deleteAllDeployments _ _ all d hns hlab)
        · subst hd
          rfl
  · intro cp sa all existing hset hlist hrep
    simp only [ensureDeploymentForControlPlane, hset, hlist, noWriteErr,
      List.length_singleton, hrep]
    simp [numReplicasWhenNoDataplane]

/-- Concrete ControlPlane without a DataPlane reference and with a configured
replica count of five. -/
def cpNoDataplane : ControlPlaneObj :=
  { meta :=
      { name := "cp", nspace := "ns", generateName := "", uid := "cpuid",
        labels := [], ownerUIDs := [] },
    generation := 1,
    spec := { env := [], envFrom := [], replicas := some 5, dataPlane := none },
    gatewayClass := none, conditions := [] }

/-- The same ControlPlane with a DataPlane reference set. -/
def cpWithDataplane : ControlPlaneObj :=
  { cpNoDataplane with
    spec := { env := [], envFrom := [], replicas := some 5, dataPlane := some "dp" } }

/-- Concrete Deployment owned by the ControlPlane above, with the given
replica override. -/
def cpOwnedDeployment (r : Option Int) : DeploymentObj :=
  { meta :=
      { name := "cpdep", nspace := "ns", generateName := "", uid := "depuid",
        labels := [(GatewayOperatorControlledLabel, ControlPlaneManagedLabelValue)],
        ownerUIDs := ["cpuid"] },
    specReplicas := r, containerEnv := [], statusReplicas := 0, availableReplicas := 0 }

/-- C5 witness: the concrete owned Deployment is scaled to zero while no
DataPlane is set; setting the reference unsets the zero replica override. -/
theorem controlplane_deployment_dormancy_witness :
    (cpOwnedDeployment (some 0)).specReplicas = some 0 ∧
    (∃ d, (ensureDeploymentForControlPlane cpWithDataplane "sa"
        [cpOwnedDeployment (some 0)] noWriteErr).1 = .ok (true, d) ∧
      d.specReplicas = none) :=
  ⟨controlplane_deployment_dormancy.1 cpNoDataplane "sa" [cpOwnedDeployment (some 5)]
      (by decide) (cpOwnedDeployment (some 0)) (by decide) (by decide) (by decide) (by decide),
   controlplane_deployment_dormancy.2 cpWithDataplane "sa" [cpOwnedDeployment (some 0)]
      (cpOwnedDeployment (some 0)) (by decide) (by decide) (by decide)⟩

/-- Concrete Gateway owning two ControlPlanes and one DataPlane. -/
def dupGateway : GatewayObj :=
  { meta :=
      { name := "gw", nspace := "ns", generateName := "", uid := "gwuid",
        labels := [], ownerUIDs := [] },
    generation := 1, gatewayClassName := "kong", conditions := [], addresses := [] }

/-- Concrete GatewayClass handled by this operator. -/
def dupGatewayClass : GatewayClassObj :=
  { name := "kong", controllerName := "kong", parametersRef := none }

/-- Concrete gateway-managed ControlPlane owned by dupGateway. -/
def gwOwnedControlPlane (nm : String) : ControlPlaneObj :=
  { meta :=
      { name := nm, nspace := "ns", generateName := "", uid := nm ++ "uid",
        labels := [(GatewayOperatorControlledLabel, GatewayManagedLabelValue)],
        ownerUIDs := ["gwuid"] },
    generation := 1, spec := emptyControlPlaneDeploymentOptions,
    gatewayClass := some "kong", conditions := [] }

/-- Concrete gateway-managed DataPlane owned by dupGateway. -/
def gwOwnedDataPlane : DataPlaneObj :=
  { meta :=
      { name := "dp", nspace := "ns", generateName := "", uid := "dpuid",
        labels := [(GatewayOperatorControlledLabel, GatewayManagedLabelValue)],
        ownerUIDs := ["gwuid"] },
    generation := 1, spec := emptyDataPlaneDeploymentOptions, conditions := [] }

/-- Cluster with a duplicated ControlPlane pair owned by the same Gateway. -/
def dupCluster : Cluster :=
  { dataplanes := [gwOwnedDataPlane],
    controlplanes := [gwOwnedControlPlane "cp1", gwOwnedControlPlane "cp2"],
    services := [] }

/-- C2: evaluation of ensureControlPlaneForGateway at a Gateway owning two
ControlPlanes: because the duplicate-resolution branch issues DeleteAllOf on
the DataPlane kind, the pass deletes the owned DataPlane, leaves both
duplicate ControlPlanes in place and creates a third one, so the owned
ControlPlane count becomes three instead of one. -/
theorem duplicate_controlplanes_not_converged :
    (ListControlPlanesForGateway dupGateway
        (ensureControlPlaneForGateway dupGatewayClass dupGateway emptyGatewayConfiguration
          "dp" dupCluster noWriteErr).2.controlplanes).length = 3 ∧
    (ensureControlPlaneForGateway dupGatewayClass dupGateway emptyGatewayConfiguration
        "dp" dupCluster noWriteErr).2.dataplanes = [] := by
  decide

/-- Concrete DataPlane owning two duplicate Deployments. -/
def dupDeploymentOwner : DataPlaneObj :=
  { meta :=
      { name := "dp", nspace := "ns", generateName := "", uid := "dpuid",
        labels := [], ownerUIDs := [] },
    generation := 1, spec := emptyDataPlaneDeploymentOptions, conditions := [] }

/-- Concrete dataplane-managed Deployment owned by dupDeploymentOwner. -/
def dpOwnedDeployment (nm : String) : DeploymentObj :=
  { meta :=
      { name := nm, nspace := "ns", generateName := "", uid := nm ++ "uid",
        labels := [(GatewayOperatorControlledLabel, DataPlaneManagedLabelValue)],
        ownerUIDs := ["dpuid"] },
    specReplicas := none, containerEnv := [], statusReplicas := 0, availableReplicas := 0 }

/-- Contrast for C2: the analogous DataPlane-side ensure does converge a
duplicated owned Deployment pair back to exactly one in a single pass. -/
theorem duplicate_dataplane_deployments_converge_example :
    (ListDeploymentsForOwner GatewayOperatorControlledLabel DataPlaneManagedLabelValue
        "ns" "dpuid"
        (ensureDeploymentForDataPlane dupDeploymentOwner
          [dpOwnedDeployment "d1", dpOwnedDeployment "d2"] noWriteErr).2).length = 1 := by
  decide

/-- C8 (amended): a Gateway whose GatewayClass has a mismatched controller
name is silently ignored, returning success with no error, no status write
and no cluster mutation; a Gateway whose GatewayClass lookup fails (the class
is absent) instead propagates the lookup error to the caller. -/
theorem gateway_unsupported_class_semantics :
    (∀ (env : GwEnv) (cluster : Cluster) (gw : GatewayObj) (gwc : GatewayClassObj),
      env.getGateway = .ok gw →
      gw.gatewayClassName ≠ "" →
      env.getGatewayClass = .ok gwc →
      gwc.controllerName ≠ env.controllerName →
      gatewayReconcile env cluster = ⟨emptyCtrlResult, none, none, none, none, cluster⟩) ∧
    (∀ (env : GwEnv) (cluster : Cluster) (gw : GatewayObj) (e : K8sError),
      env.getGateway = .ok gw →
      gw.gatewayClassName ≠ "" →
      env.getGatewayClass = .error e →
      gatewayReconcile env cluster =
        ⟨emptyCtrlResult, some (.k8s e), none, none, none, cluster⟩) := by
  constructor
  · intro env cluster gw gwc hget hname hcls hne
    simp only [gatewayReconcile, verifyGatewayClassSupport, hget, hcls, if_neg hname,
      if_pos hne]
  · intro env cluster gw e hget hname hcls
    simp only [gatewayReconcile, verifyGatewayClassSupport, hget, hcls, if_neg hname]

/-- Concrete Gateway environment whose GatewayClass lookup returns NotFound. -/
def envClassAbsent : GwEnv :=
  { now := 0, controllerName := "kong", getGateway := .ok dupGateway,
    getGatewayClass := .error .notFound, getGatewayConfig := .error .notFound,
    scheduledUpdateErr := none, dpWrites := noWriteErr, cpWrites := noWriteErr,
    readyUpdateErr := none }

/-- C8 counterexample: with the referenced GatewayClass absent from the
cluster, the reconcile pass returns the NotFound error to the caller instead
of silently succeeding. -/
theorem gateway_class_absent_counterexample :
    (gatewayReconcile envClassAbsent dupCluster).err = some (.k8s .notFound) ∧
    (gatewayReconcile envClassAbsent dupCluster).res = emptyCtrlResult := by
  decide

/-- Concrete Gateway environment whose GatewayClass carries a different
controller name. -/
def envClassMismatch : GwEnv :=
  { envClassAbsent with
    getGatewayClass := .ok { name := "kong", controllerName := "other", parametersRef := none } }

/-- C8 witness: the mismatch case is silently ignored and the absent case
errors, at concrete inputs. -/
theorem gateway_unsupported_class_semantics_witness :
    gatewayReconcile envClassMismatch dupCluster =
      ⟨emptyCtrlResult, none, none, none, none, dupCluster⟩ ∧
    gatewayReconcile envClassAbsent dupCluster =
      ⟨emptyCtrlResult, some (.k8s .notFound), none, none, none, dupCluster⟩ :=
  ⟨gateway_unsupported_class_semantics.1 envClassMismatch dupCluster dupGateway
      { name := "kong", controllerName := "other", parametersRef := none }
      rfl (by decide) rfl (by decide),
   gateway_unsupported_class_semantics.2 envClassAbsent dupCluster dupGateway .notFound
      rfl (by decide) rfl⟩

/-- C10: when ensureGatewayMarkedReady marks a Gateway Ready, the persisted
status carries exactly one condition, the Ready/True condition stamped with
the current generation; every previously present entry, including Scheduled,
is removed in the same update. -/
theorem gateway_ready_marking_replaces_conditions :
    ∀ (now : Int) (gw : GatewayObj) (dataplane : DataPlaneObj)
      (services : List ServiceObj) (svc : ServiceObj),
      IsGatewayReady gw = false →
      ListServicesForOwner GatewayOperatorControlledLabel DataPlaneManagedLabelValue
        dataplane.meta.nspace dataplane.meta.uid services = [svc] →
      svc.clusterIP ≠ "" →
      ∃ g, ensureGatewayMarkedReady now gw dataplane services none = .ok (some g) ∧
        g.conditions = [gatewayReadyCondition gw.generation now] := by
  intro now gw dataplane services svc hnr hlist hip
  simp only [ensureGatewayMarkedReady, hnr, hlist, if_neg hip]
  simp

/-- Concrete Gateway carrying only the Scheduled condition. -/
def gwScheduledOnly : GatewayObj :=
  { dupGateway with conditions := [gatewayScheduledCondition "kong" 1 0] }

/-- Concrete dataplane-managed Service with a cluster IP and no load-balancer
ingress. -/
def ownedSvc : ServiceObj :=
  { meta :=
      { name := "svc", nspace := "ns", generateName := "", uid := "svcuid",
        labels := [(GatewayOperatorControlledLabel, DataPlaneManagedLabelValue)],
        ownerUIDs := ["dpuid"] },
    clusterIP := "10.0.0.1", lbIngressIPs := [] }

/-- C10 witness: marking a concrete Gateway Ready replaces its Scheduled-only
condition list with the single Ready condition. -/
theorem gateway_ready_marking_replaces_conditions_witness :
    ∃ g, ensureGatewayMarkedReady 5 gwScheduledOnly gwOwnedDataPlane [ownedSvc] none =
        .ok (some g) ∧
      g.conditions = [gatewayReadyCondition gwScheduledOnly.generation 5] :=
  gateway_ready_marking_replaces_conditions 5 gwScheduledOnly gwOwnedDataPlane [ownedSvc]
    ownedSvc (by decide) (by decide) (by decide)

/-- C6 (amended): when the Gateway is marked Ready, its address list is the
first load-balancer ingress IP when one is present followed always by the
cluster IP of the DataPlane Service: the cluster-internal address is included
even when a load-balancer address exists. -/
theorem gateway_addresses_from_service :
    ∀ (now : Int) (gw : GatewayObj) (dataplane : DataPlaneObj)
      (services : List ServiceObj) (svc : ServiceObj),
      IsGatewayReady gw = false →
      ListServicesForOwner GatewayOperatorControlledLabel DataPlaneManagedLabelValue
        dataplane.meta.nspace dataplane.meta.uid services = [svc] →
      svc.clusterIP ≠ "" →
      ∃ g, ensureGatewayMarkedReady now gw dataplane services none = .ok (some g) ∧
        g.addresses =
          ((match svc.lbIngressIPs with
            | [] => []
            | ip :: _ => [ip]) ++ [svc.clusterIP]).map
            fun ip => { addrType := IPAddressType, value := ip } := by
  intro now gw dataplane services svc hnr hlist hip
  simp only [ensureGatewayMarkedReady, hnr, hlist, if_neg hip]
  simp [PruneGatewayStatusConds]

/-- Concrete dataplane-managed Service with both a load-balancer ingress IP
and a cluster IP. -/
def ownedSvcLB : ServiceObj :=
  { ownedSvc with lbIngressIPs := ["1.2.3.4"] }

/-- C6 counterexample: with a load-balancer address present, the persisted
address list contains the load-balancer IP and the cluster IP, so it reflects
both sources rather than exactly one of the two. -/
theorem gateway_addresses_counterexample :
    ∃ g, ensureGatewayMarkedReady 0 gwScheduledOnly gwOwnedDataPlane [ownedSvcLB] none =
        .ok (some g) ∧
      g.addresses = [{ addrType := IPAddressType, value := "1.2.3.4" },
        { addrType := IPAddressType, value := "10.0.0.1" }] := by
  exact ⟨_, rfl, by decide⟩

/-- C6 witness: with no load-balancer ingress, the persisted address list is
the cluster IP alone. -/
theorem gateway_addresses_from_service_witness :
    ∃ g, ensureGatewayMarkedReady 0 gwScheduledOnly gwOwnedDataPlane [ownedSvc] none =
        .ok (some g) ∧
      g.addresses =
        ((match ownedSvc.lbIngressIPs with
          | [] => []
          | ip :: _ => [ip]) ++ [ownedSvc.clusterIP]).map
          fun ip => { addrType := IPAddressType, value := ip } :=
  gateway_addresses_from_service 0 gwScheduledOnly gwOwnedDataPlane [ownedSvc] ownedSvc
    (by decide) (by decide) (by decide)

/-- C1 (amended): a Gateway pass writes Ready/True only when the DataPlane
and ControlPlane it resolved both carry a Provisioned/True condition at the
time of the pass; when the resolved DataPlane is not Provisioned, the pass
performs no status write at all and returns a bare requeue with no error, so
an already-present Ready/True condition is left in place rather than being
flipped to False. -/
theorem gateway_ready_marking_requires_provisioned_children :
    ∀ (env : GwEnv) (cluster : Cluster),
      (∀ g : GatewayObj,
        (gatewayReconcile env cluster).statusWrite = some (.ready g) →
        ∃ dp cp, (gatewayReconcile env cluster).dpUsed = some dp ∧
          (dp.conditions.any fun c =>
            c.ctype = DataPlaneConditionTypeProvisioned && c.status = ConditionTrue) = true ∧
          (gatewayReconcile env cluster).cpUsed = some cp ∧
          (cp.conditions.any fun c =>
            c.ctype = ControlPlaneConditionTypeProvisioned && c.status = ConditionTrue) = true) ∧
      (∀ dp : DataPlaneObj,
        (gatewayReconcile env cluster).dpUsed = some dp →
        (dp.conditions.any fun c =>
          c.ctype = DataPlaneConditionTypeProvisioned && c.status = ConditionTrue) = false →
        (gatewayReconcile env cluster).statusWrite = none ∧
        (gatewayReconcile env cluster).res = requeueResult ∧
        (gatewayReconcile env cluster).err = none) := by
  intro env cluster
  rcases hget : env.getGateway with e | gateway
  · cases e <;>
      refine ⟨fun g h => ?_, fun dp h hprov => ?_⟩ <;>
      simp [gatewayReconcile, hget] at h
  · rcases hv : verifyGatewayClassSupport env.controllerName gateway env.getGatewayClass
        with ve | gatewayClass
    · cases ve <;>
        refine ⟨fun g h => ?_, fun dp h hprov => ?_⟩ <;>
        simp [gatewayReconcile, hget, hv] at h
    · cases hsch : IsGatewayScheduled gateway with
      | false =>
        rcases hse : env.scheduledUpdateErr with _ | e <;>
          refine ⟨fun g h => ?_, fun dp h hprov => ?_⟩ <;>
          simp [gatewayReconcile, hget, hv, hsch, hse] at h
      | true =>
        rcases hcfg : getOrCreateGatewayConfiguration gatewayClass env.getGatewayConfig
            with ce | gatewayConfig
        · cases ce <;>
            refine ⟨fun g h => ?_, fun dp h hprov => ?_⟩ <;>
            simp [gatewayReconcile, hget, hv, hsch, hcfg] at h
        · rcases hdp : ensureDataPlaneForGateway gateway
              (setDataplaneGatewayConfigDefaults gatewayConfig) cluster env.dpWrites
              with ⟨dpRes, cluster1⟩
          cases dpRes with
          | error e =>
            refine ⟨fun g h => ?_, fun dp h hprov => ?_⟩ <;>
              simp [gatewayReconcile, hget, hv, hsch, hcfg, hdp] at h
          | ok dataplane =>
            cases hdr : dataplane.conditions.any fun c =>
                c.ctype = DataPlaneConditionTypeProvisioned && c.status = ConditionTrue with
            | false =>
              refine ⟨fun g h => ?_, fun dp h hprov => ?_⟩
              · simp [gatewayReconcile, hget, hv, hsch, hcfg, hdp, hdr] at h
              · simp [gatewayReconcile, hget, hv, hsch, hcfg, hdp, hdr] at h ⊢
            | true =>
              rcases hsvcs : ListServicesForOwner GatewayOperatorControlledLabel
                  DataPlaneManagedLabelValue dataplane.meta.nspace dataplane.meta.uid
                  cluster1.services with _ | ⟨svc, rest⟩
              · refine ⟨fun g h => ?_, fun dp h hprov => ?_⟩
                · simp [gatewayReconcile, hget, hv, hsch, hcfg, hdp, hdr, hsvcs] at h
                · simp [gatewayReconcile, hget, hv, hsch, hcfg, hdp, hdr, hsvcs] at h
                  subst h
                  rw [hdr] at hprov
                  exact Bool.noConfusion hprov
              · rcases rest with _ | ⟨svc2, rest2⟩
                · rcases hcp : ensureControlPlaneForGateway gatewayClass gateway
                      (setControlplaneGatewayConfigDefaults gateway
                        (setDataplaneGatewayConfigDefaults gatewayConfig)
                        dataplane.meta.name svc.meta.name)
                      dataplane.meta.name cluster1 env.cpWrites
                      with ⟨cpRes, cluster2⟩
                  cases cpRes with
                  | error e =>
                    refine ⟨fun g h => ?_, fun dp h hprov => ?_⟩
                    · simp [gatewayReconcile, hget, hv, hsch, hcfg, hdp, hdr, hsvcs,
                        hcp] at h
                    · simp [gatewayReconcile, hget, hv, hsch, hcfg, hdp, hdr, hsvcs,
                        hcp] at h
                      subst h
                      rw [hdr] at hprov
                      exact Bool.noConfusion hprov
                  | ok controlplane =>
                    cases hcr : controlplane.conditions.any fun c =>
                        c.ctype = ControlPlaneConditionTypeProvisioned &&
                          c.status = ConditionTrue with
                    | false =>
                      refine ⟨fun g h => ?_, fun dp h hprov => ?_⟩
                      · simp [gatewayReconcile, hget, hv, hsch, hcfg, hdp, hdr, hsvcs,
                          hcp, hcr] at h
                      · simp [gatewayReconcile, hget, hv, hsch, hcfg, hdp, hdr, hsvcs,
                          hcp, hcr] at h
                        subst h
                        rw [hdr] at hprov
                        exact Bool.noConfusion hprov
                    | true =>
                      rcases hmark : ensureGatewayMarkedReady env.now gateway dataplane
                          cluster2.services env.readyUpdateErr with me | og
                      · refine ⟨fun g h => ?_, fun dp h hprov => ?_⟩
                        · simp [gatewayReconcile, hget, hv, hsch, hcfg, hdp, hdr, hsvcs,
                            hcp, hcr, hmark] at h
                        · simp [gatewayReconcile, hget, hv, hsch, hcfg, hdp, hdr, hsvcs,
                            hcp, hcr, hmark] at h
                          subst h
                          rw [hdr] at hprov
                          exact Bool.noConfusion hprov
                      · cases og with
                        | none =>
                          refine ⟨fun g h => ?_, fun dp h hprov => ?_⟩
                          · simp [gatewayReconcile, hget, hv, hsch, hcfg, hdp, hdr, hsvcs,
                              hcp, hcr, hmark] at h
                          · simp [gatewayReconcile, hget, hv, hsch, hcfg, hdp, hdr, hsvcs,
                              hcp, hcr, hmark] at h
                            subst h
                            rw [hdr] at hprov
                            exact Bool.noConfusion hprov
                        | some g0 =>
                          refine ⟨fun g h => ?_, fun dp h hprov => ?_⟩
                          · refine ⟨dataplane, controlplane, ?_, hdr, ?_, hcr⟩ <;>
                              simp [gatewayReconcile, hget, hv, hsch, hcfg, hdp, hdr,
                                hsvcs, hcp, hcr, hmark]
                          · simp [gatewayReconcile, hget, hv, hsch, hcfg, hdp, hdr, hsvcs,
                              hcp, hcr, hmark] at h
                            subst h
                            rw [hdr] at hprov
                            exact Bool.noConfusion hprov
                · refine ⟨fun g h => ?_, fun dp h hprov => ?_⟩
                  · simp [gatewayReconcile, hget, hv, hsch, hcfg, hdp, hdr, hsvcs] at h
                  · simp [gatewayReconcile, hget, hv, hsch, hcfg, hdp, hdr, hsvcs] at h
                    subst h
                    rw [hdr] at hprov
                    exact Bool.noConfusion hprov

/-- Concrete Gateway already carrying Scheduled/True and a Ready/True
condition stamped with its current generation. -/
def gwStaleReady : GatewayObj :=
  { dupGateway with
    conditions := [gatewayScheduledCondition "kong" 1 0, gatewayReadyCondition 1 0] }

/-- The owned DataPlane of the stale-Ready Gateway, with Provisioned now
False. -/
def gwOwnedDataPlaneNotProvisioned : DataPlaneObj :=
  { gwOwnedDataPlane with
    conditions :=
      [{ ctype := DataPlaneConditionTypeProvisioned,
         status := ConditionFalse, reason := DataPlaneConditionReasonPodsNotReady,
         message := "", observedGeneration := 1, lastTransitionTime := 0 }] }

/-- Cluster state for the stale-Ready scenario. -/
def staleReadyCluster : Cluster :=
  { dataplanes := [gwOwnedDataPlaneNotProvisioned], controlplanes := [], services := [] }

/-- Environment for the stale-Ready scenario. -/
def envStaleReady : GwEnv :=
  { now := 7, controllerName := "kong", getGateway := .ok gwStaleReady,
    getGatewayClass := .ok dupGatewayClass, getGatewayConfig := .error .notFound,
    scheduledUpdateErr := none, dpWrites := noWriteErr, cpWrites := noWriteErr,
    readyUpdateErr := none }

/-- C1 counterexample: with the owned DataPlane no longer Provisioned, the
next pass over a Gateway that is already Ready/True performs no status write
and no cluster mutation at all, leaving the stale Ready/True condition in the
Gateway status instead of flipping it to False or removing it. -/
theorem gateway_stale_ready_counterexample :
    gatewayReconcile envStaleReady staleReadyCluster =
      ⟨requeueResult, none, none, some gwOwnedDataPlaneNotProvisioned, none,
        staleReadyCluster⟩ ∧
    gatewayReadyCondition 1 0 ∈ gwStaleReady.conditions ∧
    (gwOwnedDataPlaneNotProvisioned.conditions.any fun c =>
      c.ctype = DataPlaneConditionTypeProvisioned && c.status = ConditionTrue) = false :=
  ⟨rfl, by decide, by decide⟩

/-- The owned DataPlane with Provisioned/True. -/
def gwOwnedDataPlaneProvisioned : DataPlaneObj :=
  { gwOwnedDataPlane with
    conditions :=
      [{ ctype := DataPlaneConditionTypeProvisioned,
         status := ConditionTrue, reason := DataPlaneConditionReasonPodsReady,
         message := "", observedGeneration := 1, lastTransitionTime := 0 }] }

/-- The owned ControlPlane with Provisioned/True. -/
def gwOwnedControlPlaneProvisioned : ControlPlaneObj :=
  { gwOwnedControlPlane "cp1" with
    conditions :=
      [{ ctype := ControlPlaneConditionTypeProvisioned,
         status := ConditionTrue, reason := "PodsReady",
         message := "", observedGeneration := 1, lastTransitionTime := 0 }] }

/-- Cluster state in which both children are Provisioned and the DataPlane
Service has a cluster IP. -/
def successCluster : Cluster :=
  { dataplanes := [gwOwnedDataPlaneProvisioned],
    controlplanes := [gwOwnedControlPlaneProvisioned],
    services := [ownedSvc] }

/-- Environment for the fully provisioned scenario. -/
def envFullSuccess : GwEnv :=
  { envStaleReady with getGateway := .ok gwScheduledOnly }

/-- The Gateway status written by the Ready marking of the success pass. -/
def gwReadyWritten : GatewayObj :=
  { gwScheduledOnly with
    conditions := [gatewayReadyCondition 1 7],
    addresses := [{ addrType := IPAddressType, value := "10.0.0.1" }] }

/-- C1 witness: the success pass writes Ready only with both children
Provisioned, and the stale-Ready pass performs no status write. -/
theorem gateway_ready_marking_requires_provisioned_children_witness :
    (∃ dp cp, (gatewayReconcile envFullSuccess successCluster).dpUsed = some dp ∧
      (dp.conditions.any fun c =>
        c.ctype = DataPlaneConditionTypeProvisioned && c.status = ConditionTrue) = true ∧
      (gatewayReconcile envFullSuccess successCluster).cpUsed = some cp ∧
      (cp.conditions.any fun c =>
        c.ctype = ControlPlaneConditionTypeProvisioned && c.status = ConditionTrue) = true) ∧
    ((gatewayReconcile envStaleReady staleReadyCluster).statusWrite = none ∧
      (gatewayReconcile envStaleReady staleReadyCluster).res = requeueResult ∧
      (gatewayReconcile envStaleReady staleReadyCluster).err = none) :=
  ⟨(gateway_ready_marking_requires_provisioned_children envFullSuccess successCluster).1
      gwReadyWritten (by decide),
   (gateway_ready_marking_requires_provisioned_children envStaleReady staleReadyCluster).2
      gwOwnedDataPlaneNotProvisioned (by decide) (by decide)⟩
